import Mathlib

/-
  Verification development for the golfapi-scapper repository.

  The definitions below are a shallow embedding of the crawl engine:
    - src/config.py   -> Config
    - src/database.py -> Metadata, DB and the functions named after the
      Database methods (record_api_call, get_api_calls_in_window,
      cleanup_old_api_calls, get_oldest_api_call_in_window,
      is_course_already_attempted, record_scrape_attempt,
      update_scrape_metadata, save_course)
    - src/scraper.py  -> fetch_course, check_rate_limit,
      wait_for_rate_limit_window and the scrape loop
      (scrape_iter / scrape_loop / scrape)
    - src/main.py     -> main

  Modelling conventions:
    - Wall-clock time is an Int counted in milliseconds (the inter-request
      delay of 1.5 seconds is 1500 ms, so every configured duration stays
      integral).  time.sleep advances the clock; nothing else does, as the
      crawl is a single sequential worker.
    - The HTTP session is an oracle mapping (course_id, attempt number) to
      the classified response of that network call.  Each issued
      session.get is logged in Env.netLog; a RequestException raised by
      session.get is the netError response, in which case no code after
      the get runs (in particular record_api_call does not run).
    - SQL REAL columns carry no logic or constraint in the program, so
      their values are abstracted as Option Int; TIMESTAMP columns are
      the Int clock.  The CHECK and NOT NULL constraints that the inserts
      of save_course can actually violate are modelled explicitly, and
      the transaction context manager of database.py is modelled by
      save_course returning Except: on error the caller keeps the
      previous DB, which is exactly the rollback semantics.
    - The unbounded while loop of GolfCourseScraper.scrape is given
      explicit fuel (number of loop iterations); running out of fuel is
      the outcome outOfFuel, distinct from the loop terminating.
-/

set_option maxHeartbeats 1000000

namespace GolfScraper

/-- Configuration constants from src/config.py (default values, durations
in milliseconds). -/
structure Config where
  MAX_CALLS_PER_DAY : Nat
  RATE_LIMIT_WINDOW_HOURS : Nat
  CONSECUTIVE_404_LIMIT : Nat
  REQUEST_DELAY_MS : Nat
  RETRY_DELAY_MS : Nat
  RETRY_MAX_ATTEMPTS : Nat
  RATE_LIMIT_SLEEP_MS : Nat
deriving DecidableEq

/-- The default configuration of config.py: 295 calls per 24 h window,
1000 consecutive 404s to stop, 1.5 s request delay, 300 s linear retry
base, 3 attempts, 3600 s throttle cooldown. -/
def defaultConfig : Config :=
  { MAX_CALLS_PER_DAY := 295
    RATE_LIMIT_WINDOW_HOURS := 24
    CONSECUTIVE_404_LIMIT := 1000
    REQUEST_DELAY_MS := 1500
    RETRY_DELAY_MS := 300000
    RETRY_MAX_ATTEMPTS := 3
    RATE_LIMIT_SLEEP_MS := 3600000 }

/-- The rolling window length in milliseconds. -/
def windowMs (cfg : Config) : Int := (cfg.RATE_LIMIT_WINDOW_HOURS : Int) * 3600000

/-- The singleton scrape_metadata row of database.py. -/
structure Metadata where
  last_scraped_id : Int
  consecutive_404s : Nat
  total_courses_scraped : Nat
  scraping_complete : Bool
  last_updated : Int
  created_at : Int
deriving DecidableEq

/-- One row of the scrape_attempts table (primary key course_id). -/
structure AttemptRow where
  course_id : Int
  status_code : Nat
  success : Bool
  attempted_at : Int
deriving DecidableEq

/-- One row of the courses table. -/
structure CourseRow where
  id : Int
  club_name : String
  course_name : String
  created_at : Int
deriving DecidableEq

/-- One row of the locations table (course_id is UNIQUE; the autoincrement
id column carries no logic and is omitted). -/
structure LocationRow where
  course_id : Int
  address : Option String
  city : Option String
  state : Option String
  country : Option String
  latitude : Option Int
  longitude : Option Int
deriving DecidableEq

/-- The CHECK(gender IN ('male','female')) constraint of the tees table,
modelled as the type of admissible values. -/
inductive Gender
  | male
  | female
deriving DecidableEq

/-- One row of the tees table (id is the sqlite rowid used as lastrowid). -/
structure TeeRow where
  id : Nat
  course_id : Int
  gender : Gender
  tee_name : String
  course_rating : Option Int
  slope_rating : Option Int
  bogey_rating : Option Int
  total_yards : Option Int
  total_meters : Option Int
  number_of_holes : Option Int
  par_total : Option Int
  front_course_rating : Option Int
  front_slope_rating : Option Int
  front_bogey_rating : Option Int
  back_course_rating : Option Int
  back_slope_rating : Option Int
  back_bogey_rating : Option Int
deriving DecidableEq

/-- One row of the holes table (CHECK hole_number BETWEEN 1 AND 18). -/
structure HoleRow where
  tee_id : Nat
  hole_number : Nat
  par : Option Int
  yardage : Option Int
  handicap : Option Int
deriving DecidableEq

/-- The persistent sqlite store of database.py. -/
structure DB where
  metadata : Metadata
  api_calls : List Int
  scrape_attempts : List AttemptRow
  courses : List CourseRow
  locations : List LocationRow
  tees : List TeeRow
  holes : List HoleRow
  next_tee_rowid : Nat
deriving DecidableEq

/-- One element of a tee's 'holes' list in the API payload. -/
structure HoleData where
  par : Option Int
  yardage : Option Int
  handicap : Option Int
deriving DecidableEq

/-- One element of a tees gender list in the API payload. -/
structure TeeData where
  tee_name : Option String
  course_rating : Option Int
  slope_rating : Option Int
  bogey_rating : Option Int
  total_yards : Option Int
  total_meters : Option Int
  number_of_holes : Option Int
  par_total : Option Int
  front_course_rating : Option Int
  front_slope_rating : Option Int
  front_bogey_rating : Option Int
  back_course_rating : Option Int
  back_slope_rating : Option Int
  back_bogey_rating : Option Int
  holes : List HoleData
deriving DecidableEq

/-- The 'location' object of the API payload. -/
structure LocationData where
  address : Option String
  city : Option String
  state : Option String
  country : Option String
  latitude : Option Int
  longitude : Option Int
deriving DecidableEq

/-- The 'course' object of the API payload; course_data.get uses of
save_course are the Option fields. -/
structure CourseFields where
  id : Option Int
  club_name : Option String
  course_name : Option String
  location : Option LocationData
  tees_male : List TeeData
  tees_female : List TeeData
deriving DecidableEq

/-- A parsed response body, course_data in scraper.py. -/
structure CourseData where
  course : Option CourseFields
deriving DecidableEq

/-- The empty dict default of course_data.get('course', \x7b\x7d). -/
def emptyCourseFields : CourseFields :=
  { id := none, club_name := none, course_name := none, location := none
    tees_male := [], tees_female := [] }

/-- Database.record_api_call: INSERT INTO api_calls a row stamped now. -/
def record_api_call (now : Int) (db : DB) : DB :=
  { db with api_calls := db.api_calls ++ [now] }

/-- Database.get_api_calls_in_window: COUNT of api_calls rows with
timestamp strictly greater than now minus the window. -/
def get_api_calls_in_window (cfg : Config) (now : Int) (db : DB) : Nat :=
  (db.api_calls.filter (fun ts => now - windowMs cfg < ts)).length

/-- Database.cleanup_old_api_calls: DELETE api_calls rows with timestamp
less than or equal to now minus the window. -/
def cleanup_old_api_calls (cfg : Config) (now : Int) (db : DB) : DB :=
  { db with api_calls := db.api_calls.filter (fun ts => now - windowMs cfg < ts) }

/-- Database.get_oldest_api_call_in_window: MIN timestamp among api_calls
rows inside the window, none if there are no such rows. -/
def get_oldest_api_call_in_window (cfg : Config) (now : Int) (db : DB) : Option Int :=
  (db.api_calls.filter (fun ts => now - windowMs cfg < ts)).min?

/-- Database.is_course_already_attempted: existence of a scrape_attempts
row with this course_id. -/
def is_course_already_attempted (course_id : Int) (db : DB) : Bool :=
  db.scrape_attempts.any (fun r => r.course_id == course_id)

/-- Database.record_scrape_attempt: INSERT OR REPLACE on the primary key
course_id — any previous row for the id is replaced by the new one. -/
def record_scrape_attempt (course_id : Int) (status_code : Nat) (success : Bool)
    (now : Int) (db : DB) : DB :=
  { db with scrape_attempts :=
      (db.scrape_attempts.filter (fun r => r.course_id != course_id)) ++
        [{ course_id := course_id, status_code := status_code, success := success
           attempted_at := now }] }

/-- The keyword arguments accepted by Database.update_scrape_metadata at
its call sites; a Python kwargs dict binds each key at most once, so each
field is an Option. -/
structure MetaKwargs where
  last_scraped_id : Option Int := none
  consecutive_404s : Option Nat := none
  total_courses_scraped : Option Nat := none
  scraping_complete : Option Bool := none
deriving DecidableEq

/-- Database.update_scrape_metadata: dynamic SET clause over exactly the
passed kwargs, always also setting last_updated, on the singleton row. -/
def update_scrape_metadata (kw : MetaKwargs) (now : Int) (db : DB) : DB :=
  { db with metadata :=
      { db.metadata with
          last_scraped_id := kw.last_scraped_id.getD db.metadata.last_scraped_id
          consecutive_404s := kw.consecutive_404s.getD db.metadata.consecutive_404s
          total_courses_scraped := kw.total_courses_scraped.getD db.metadata.total_courses_scraped
          scraping_complete := kw.scraping_complete.getD db.metadata.scraping_complete
          last_updated := now } }

/-- The failures an insert of save_course can raise: the explicit
ValueError for a falsy course id, the NOT NULL constraint on
tees.tee_name, and the CHECK constraint on holes.hole_number. -/
inductive SaveError
  | missingCourseId
  | teeNameNotNull
  | holeNumberCheck
deriving DecidableEq

/-- The hole insert loop of save_course: enumerate(holes, start=1) gives
hole_number; the holes table CHECK rejects a number outside 1..18. -/
def insertHoles (tee_id : Nat) : Nat → List HoleData → Except SaveError (List HoleRow)
  | _, [] => .ok []
  | hole_num, h :: rest =>
    if 1 ≤ hole_num ∧ hole_num ≤ 18 then
      match insertHoles tee_id (hole_num + 1) rest with
      | .ok rows =>
          .ok ({ tee_id := tee_id, hole_number := hole_num, par := h.par
                 yardage := h.yardage, handicap := h.handicap } :: rows)
      | .error e => .error e
    else
      .error .holeNumberCheck

/-- The tee insert loop of save_course for one gender list: each tee row
takes the next sqlite rowid (cursor.lastrowid) and its holes are inserted
right after it; tee_name is a NOT NULL column fed from tee.get, so a
missing tee_name raises. -/
def insertTees (course_id : Int) (gender : Gender) :
    List TeeData → DB → Except SaveError DB
  | [], db => .ok db
  | t :: rest, db =>
    match t.tee_name with
    | none => .error .teeNameNotNull
    | some nm =>
      let tee_id := db.next_tee_rowid
      let row : TeeRow :=
        { id := tee_id, course_id := course_id, gender := gender, tee_name := nm
          course_rating := t.course_rating, slope_rating := t.slope_rating
          bogey_rating := t.bogey_rating, total_yards := t.total_yards
          total_meters := t.total_meters, number_of_holes := t.number_of_holes
          par_total := t.par_total, front_course_rating := t.front_course_rating
          front_slope_rating := t.front_slope_rating
          front_bogey_rating := t.front_bogey_rating
          back_course_rating := t.back_course_rating
          back_slope_rating := t.back_slope_rating
          back_bogey_rating := t.back_bogey_rating }
      let db1 := { db with tees := db.tees ++ [row], next_tee_rowid := tee_id + 1 }
      match insertHoles tee_id 1 t.holes with
      | .error e => .error e
      | .ok hs => insertTees course_id gender rest { db1 with holes := db1.holes ++ hs }

/-- The tee-and-hole loops of save_course (the gender loop over 'male'
then 'female') followed by the final UPDATE incrementing
total_courses_scraped on the singleton metadata row. -/
def save_course_tees (course_id : Int) (tees_male tees_female : List TeeData)
    (now : Int) (db2 : DB) : Except SaveError DB :=
  match insertTees course_id .male tees_male db2 with
  | .error e => .error e
  | .ok db3 =>
    match insertTees course_id .female tees_female db3 with
    | .error e => .error e
    | .ok db4 =>
      .ok { db4 with metadata :=
              { db4.metadata with
                  total_courses_scraped := db4.metadata.total_courses_scraped + 1
                  last_updated := now } }

/-- Database.save_course: the whole multi-row write runs inside one
transaction; an error anywhere makes the caller keep the previous DB
(rollback).  Python's falsy test 'if not course_id' rejects both a
missing id and id 0.  The courses and locations inserts are INSERT OR
REPLACE on their unique keys; the tee, hole and metadata statements are
save_course_tees. -/
def save_course (course_data : CourseData) (now : Int) (db : DB) : Except SaveError DB :=
  let course := course_data.course.getD emptyCourseFields
  match course.id with
  | none => .error .missingCourseId
  | some course_id =>
    if course_id = 0 then .error .missingCourseId
    else
      let db1 := { db with courses :=
        (db.courses.filter (fun r => r.id != course_id)) ++
          [{ id := course_id, club_name := course.club_name.getD ("")
             course_name := course.course_name.getD (""), created_at := now }] }
      let db2 :=
        match course.location with
        | none => db1
        | some loc =>
          { db1 with locations :=
              (db1.locations.filter (fun r => r.course_id != course_id)) ++
                [{ course_id := course_id, address := loc.address, city := loc.city
                   state := loc.state, country := loc.country
                   latitude := loc.latitude, longitude := loc.longitude }] }
      save_course_tees course_id course.tees_male course.tees_female now db2

/-- Whether an Except result is a success. -/
def exceptIsOk {ε α : Type} : Except ε α → Bool
  | .ok _ => true
  | .error _ => false

/-- Classified outcome of one session.get, as consumed by fetch_course:
status 200 with a parsed body, 404, 401, 429, any other status code, or a
requests.RequestException raised by the get itself. -/
inductive ApiResponse
  | ok (d : CourseData)
  | notFound
  | unauthorized
  | throttled
  | otherStatus (code : Nat)
  | netError
deriving DecidableEq

/-- The remote API: the response each (course_id, attempt number) network
call would receive. -/
abbrev Oracle := Int → Nat → ApiResponse

/-- The world the scraper acts on: the store, the wall clock, and the log
of issued session.get calls (by course id, in order). -/
structure Env where
  db : DB
  now : Int
  netLog : List Int
deriving DecidableEq

/-- time.sleep: only the clock advances. -/
def sleepMs (ms : Nat) (env : Env) : Env := { env with now := env.now + ms }

/-- One session.get: the call is logged and the oracle answers. -/
def httpGet (oracle : Oracle) (course_id : Int) (attempt : Nat) (env : Env) :
    ApiResponse × Env :=
  (oracle course_id attempt, { env with netLog := env.netLog ++ [course_id] })

/-- What fetch_course returns to the loop: a parsed payload, None (404 or
exhausted retries), or the raised ValueError on a 401. -/
inductive FetchResult
  | payload (d : CourseData)
  | absent
  | authError
deriving DecidableEq

/-- The db.record_api_call() line right after the get. -/
def recordCall (env : Env) : Env := { env with db := record_api_call env.now env.db }

/-- The retry loop of GolfCourseScraper.fetch_course, one case per
iteration of 'for attempt in range(1, RETRY_MAX_ATTEMPTS + 1)'.  The
second Nat argument is the number of loop iterations left; note that the
429 branch continues into the NEXT value of attempt, and that a
RequestException skips record_api_call. -/
def fetch_course_from (cfg : Config) (oracle : Oracle) (course_id : Int) :
    Nat → Nat → Env → FetchResult × Env
  | _, 0, env => (.absent, env)
  | attempt, rem + 1, env =>
    match httpGet oracle course_id attempt env with
    | (.ok d, env1) => (.payload d, recordCall env1)
    | (.notFound, env1) => (.absent, recordCall env1)
    | (.unauthorized, env1) => (.authError, recordCall env1)
    | (.throttled, env1) =>
        fetch_course_from cfg oracle course_id (attempt + 1) rem
          (sleepMs cfg.RATE_LIMIT_SLEEP_MS (recordCall env1))
    | (.otherStatus _, env1) =>
        let env2 := recordCall env1
        if attempt < cfg.RETRY_MAX_ATTEMPTS then
          fetch_course_from cfg oracle course_id (attempt + 1) rem
            (sleepMs (cfg.RETRY_DELAY_MS * attempt) env2)
        else (.absent, env2)
    | (.netError, env1) =>
        if attempt < cfg.RETRY_MAX_ATTEMPTS then
          fetch_course_from cfg oracle course_id (attempt + 1) rem
            (sleepMs (cfg.RETRY_DELAY_MS * attempt) env1)
        else (.absent, env1)

/-- GolfCourseScraper.fetch_course. -/
def fetch_course (cfg : Config) (oracle : Oracle) (course_id : Int) (env : Env) :
    FetchResult × Env :=
  fetch_course_from cfg oracle course_id 1 cfg.RETRY_MAX_ATTEMPTS env

/-- GolfCourseScraper.check_rate_limit: calls in window below the cap. -/
def check_rate_limit (cfg : Config) (env : Env) : Bool :=
  decide (get_api_calls_in_window cfg env.now env.db < cfg.MAX_CALLS_PER_DAY)

/-- GolfCourseScraper.wait_for_rate_limit_window: sleep until the oldest
in-window call leaves the window plus a one second buffer; if that call
has already left, clean up instead; if there is no call in the window,
sleep 60 seconds. -/
def wait_for_rate_limit_window (cfg : Config) (env : Env) : Env :=
  match get_oldest_api_call_in_window cfg env.now env.db with
  | some oldest_call =>
    let window_reset_time := oldest_call + windowMs cfg
    if env.now < window_reset_time then
      sleepMs ((window_reset_time - env.now).toNat + 1000) env
    else
      { env with db := cleanup_old_api_calls cfg env.now env.db }
  | none => sleepMs 60000 env

/-- Result of one iteration of the while loop in scrape: either continue
with a new cursor, counter and world, or propagate the 401 ValueError. -/
inductive IterOut
  | next (current_id : Int) (consecutive_404s : Nat) (env : Env)
  | abort (env : Env)
deriving DecidableEq

/-- Lines 200-208 of scraper.py: advance the cursor, apply the politeness
delay, and every 100 ids clean up expired call records. -/
def advance_cursor (cfg : Config) (current_id : Int) (consecutive_404s : Nat)
    (env : Env) : IterOut :=
  let next_id := current_id + 1
  let env1 := sleepMs cfg.REQUEST_DELAY_MS env
  let env2 :=
    if next_id % 100 == 0 then
      { env1 with db := cleanup_old_api_calls cfg env1.now env1.db }
    else env1
  .next next_id consecutive_404s env2

/-- Lines 166-175 of scraper.py: try the transactional save; on success
record AttemptRecord (id, 200, success true); if the save raises, the
transaction is rolled back (the previous store is kept) and
AttemptRecord (id, 200, success false) is recorded instead. -/
def record_payload_outcome (current_id : Int) (d : CourseData) (env2 : Env) : Env :=
  match save_course d env2.now env2.db with
  | .ok db1 => { env2 with db := record_scrape_attempt current_id 200 true env2.now db1 }
  | .error _ => { env2 with db := record_scrape_attempt current_id 200 false env2.now env2.db }

/-- Line 187 of scraper.py: record AttemptRecord (id, 404, false). -/
def record_absent_outcome (current_id : Int) (env2 : Env) : Env :=
  { env2 with db := record_scrape_attempt current_id 404 false env2.now env2.db }

/-- Lines 179-182 and 195-198 of scraper.py: persist the cursor and the
consecutive 404 counter into the progress row. -/
def apply_position_update (current_id : Int) (consecutive_404s : Nat) (env3 : Env) : Env :=
  let kw : MetaKwargs :=
    { last_scraped_id := some current_id, consecutive_404s := some consecutive_404s }
  { env3 with db := update_scrape_metadata kw env3.now env3.db }

/-- Lines 153-208 of scraper.py, after the rate-limit gate: fetch the
current id and handle the three possible fetch outcomes — a raised 401
ValueError propagates out of the loop; a payload is saved (recording a
failed attempt instead if the transactional save raises) and resets the
consecutive 404 counter; None records a 404 attempt and increments it;
in both non-fatal cases CrawlPosition is updated and the cursor
advances. -/
def handle_fetch (cfg : Config) (oracle : Oracle) (current_id : Int)
    (consecutive_404s : Nat) (env1 : Env) : IterOut :=
  match fetch_course cfg oracle current_id env1 with
  | (.authError, env2) => .abort env2
  | (.payload d, env2) =>
    advance_cursor cfg current_id 0
      (apply_position_update current_id 0 (record_payload_outcome current_id d env2))
  | (.absent, env2) =>
    advance_cursor cfg current_id (consecutive_404s + 1)
      (apply_position_update current_id (consecutive_404s + 1)
        (record_absent_outcome current_id env2))

/-- One iteration of the while loop of GolfCourseScraper.scrape: skip an
already attempted id (continue, touching nothing), otherwise gate on the
rate limit (waiting and purging if exhausted, with no re-check) and run
the fetch-and-handle body. -/
def scrape_iter (cfg : Config) (oracle : Oracle) (current_id : Int)
    (consecutive_404s : Nat) (env : Env) : IterOut :=
  if is_course_already_attempted current_id env.db then
    .next (current_id + 1) consecutive_404s env
  else
    let env1 :=
      if check_rate_limit cfg env then env
      else
        let envW := wait_for_rate_limit_window cfg env
        { envW with db := cleanup_old_api_calls cfg envW.now envW.db }
    handle_fetch cfg oracle current_id consecutive_404s env1

/-- How a bounded run of the scrape loop ended. -/
inductive ScrapeOutcome
  | done
  | aborted
  | outOfFuel
deriving DecidableEq

/-- The while loop of GolfCourseScraper.scrape with explicit fuel; when
the consecutive 404 counter is at the limit the loop exits and
scraping_complete is set true (lines 210-216). -/
def scrape_loop (cfg : Config) (oracle : Oracle) :
    Nat → Int → Nat → Env → ScrapeOutcome × Env
  | 0, _, _, env => (.outOfFuel, env)
  | fuel + 1, current_id, consecutive_404s, env =>
    if consecutive_404s < cfg.CONSECUTIVE_404_LIMIT then
      match scrape_iter cfg oracle current_id consecutive_404s env with
      | .next id2 c2 env2 => scrape_loop cfg oracle fuel id2 c2 env2
      | .abort env2 => (.aborted, env2)
    else
      let db2 := update_scrape_metadata { scraping_complete := some true } env.now env.db
      (.done, { env with db := db2 })

/-- GolfCourseScraper.scrape: an already complete crawl exits at once;
otherwise the loop resumes at last_scraped_id + 1 with the persisted
consecutive 404 counter. -/
def scrape (cfg : Config) (oracle : Oracle) (fuel : Nat) (env : Env) :
    ScrapeOutcome × Env :=
  if env.db.metadata.scraping_complete then (.done, env)
  else
    scrape_loop cfg oracle fuel (env.db.metadata.last_scraped_id + 1)
      env.db.metadata.consecutive_404s env

/-- main of src/main.py, reduced to its state effects: an already complete
crawl returns before starting the scraper; a fatal error propagating out
of scrape (the 401 ValueError) is caught and turns into sys.exit(1) after
the store is closed; every other ending exits 0.  The returned Nat is the
process exit code. -/
def main (cfg : Config) (oracle : Oracle) (fuel : Nat) (env : Env) : Nat × Env :=
  if env.db.metadata.scraping_complete then (0, env)
  else
    match scrape cfg oracle fuel env with
    | (.aborted, env2) => (1, env2)
    | (.done, env2) => (0, env2)
    | (.outOfFuel, env2) => (0, env2)

/-- The network calls the fetch_course retry loop issues and how many of
them reach the record_api_call line, computed from the oracle alone along
the same control flow: first component counts issued gets, second counts
recorded calls.  A netError attempt issues a get but records nothing. -/
def fetchCounts (cfg : Config) (oracle : Oracle) (course_id : Int) :
    Nat → Nat → Nat × Nat
  | _, 0 => (0, 0)
  | attempt, rem + 1 =>
    match oracle course_id attempt with
    | .ok _ => (1, 1)
    | .notFound => (1, 1)
    | .unauthorized => (1, 1)
    | .throttled =>
        let p := fetchCounts cfg oracle course_id (attempt + 1) rem
        (p.1 + 1, p.2 + 1)
    | .otherStatus _ =>
        if attempt < cfg.RETRY_MAX_ATTEMPTS then
          let p := fetchCounts cfg oracle course_id (attempt + 1) rem
          (p.1 + 1, p.2 + 1)
        else (1, 1)
    | .netError =>
        if attempt < cfg.RETRY_MAX_ATTEMPTS then
          let p := fetchCounts cfg oracle course_id (attempt + 1) rem
          (p.1 + 1, p.2)
        else (1, 0)

/-- The freshly initialized metadata row of _create_tables. -/
def initMetadata : Metadata :=
  { last_scraped_id := 0, consecutive_404s := 0, total_courses_scraped := 0
    scraping_complete := false, last_updated := 0, created_at := 0 }

/-- A freshly created store. -/
def initDB : DB :=
  { metadata := initMetadata, api_calls := [], scrape_attempts := []
    courses := [], locations := [], tees := [], holes := [], next_tee_rowid := 1 }

/-- A fresh world at clock 0. -/
def initEnv : Env := { db := initDB, now := 0, netLog := [] }

/-- A minimal well-formed payload for course n: id n, names present, no
location, no tees. -/
def simpleCourse (n : Int) : CourseData :=
  { course := some
      { id := some n, club_name := some ("Club"), course_name := some ("Course")
        location := none, tees_male := [], tees_female := [] } }

/-- A tee whose tee_name is missing: inserting it violates the NOT NULL
constraint on tees.tee_name, so save_course raises mid-transaction after
the parent course row was already inserted. -/
def namelessTee : TeeData :=
  { tee_name := none, course_rating := none, slope_rating := none
    bogey_rating := none, total_yards := none, total_meters := none
    number_of_holes := none, par_total := none, front_course_rating := none
    front_slope_rating := none, front_bogey_rating := none
    back_course_rating := none, back_slope_rating := none
    back_bogey_rating := none, holes := [] }

/-- A payload whose persistence fails partway through: the course row
inserts fine, then the first male tee violates NOT NULL. -/
def failingCourse : CourseData :=
  { course := some
      { id := some 7, club_name := some ("Club"), course_name := some ("Course")
        location := none, tees_male := [namelessTee], tees_female := [] } }

/-- The oracle of the C7 scenario: ids 1 and 2 are found, id 3 is a 404,
id 4 is throttled on the first call and found on the second, everything
beyond is a 404. -/
def scenarioOracle : Oracle := fun course_id attempt =>
  if course_id = 1 then .ok (simpleCourse 1)
  else if course_id = 2 then .ok (simpleCourse 2)
  else if course_id = 3 then .notFound
  else if course_id = 4 then
    (if attempt = 1 then .throttled else .ok (simpleCourse 4))
  else .notFound

/-- A configuration with a quota of one call per window. -/
def cfgMax1 : Config := { defaultConfig with MAX_CALLS_PER_DAY := 1 }

/-- Every id: throttled on the first call, found on the second. -/
def throttleOnceOracle : Oracle := fun _ attempt =>
  if attempt = 1 then .throttled else .ok (simpleCourse 1)

/-- Every id: throttled on the first three calls, found afterwards. -/
def throttleThriceOracle : Oracle := fun _ attempt =>
  if attempt ≤ 3 then .throttled else .ok (simpleCourse 1)

/-- Every call answers 403 Forbidden. -/
def status403Oracle : Oracle := fun _ _ => .otherStatus 403

/-- Every call raises a RequestException. -/
def netErrorOracle : Oracle := fun _ _ => .netError

/-- Every call answers 404. -/
def notFoundOracle : Oracle := fun _ _ => .notFound

/-- Every call answers 429. -/
def allThrottledOracle : Oracle := fun _ _ => .throttled

/-- Every call answers 401. -/
def unauthorizedOracle : Oracle := fun _ _ => .unauthorized

/-- Every call finds the failing payload. -/
def failingCourseOracle : Oracle := fun _ _ => .ok failingCourse

/-- An attempt ledger holding exactly ids 1..100. -/
def ledger100 : List AttemptRow :=
  (List.range 100).map (fun i => { course_id := (i : Int) + 1, status_code := 404
                                   success := false, attempted_at := 0 })

/-- The restart world of the idempotent-resume property: attempt records
for ids 1..100, last_scraped_id 100, crawl not complete. -/
def resumeEnv : Env :=
  { db := { initDB with
              metadata := { initMetadata with last_scraped_id := 100 }
              scrape_attempts := ledger100 }
    now := 0, netLog := [] }

/-- A world whose crawl is already marked complete. -/
def completeEnv : Env :=
  { db := { initDB with metadata := { initMetadata with scraping_complete := true } }
    now := 0, netLog := [] }

/-- The world carried by an iteration result. -/
def iterEnv : IterOut → Env
  | .next _ _ e => e
  | .abort e => e

/-- db2 agrees with db on the metadata row and on every table except
possibly the api_calls log. -/
def SameExceptCalls (db db2 : DB) : Prop :=
  db2.metadata = db.metadata ∧ db2.scrape_attempts = db.scrape_attempts
  ∧ db2.courses = db.courses ∧ db2.locations = db.locations
  ∧ db2.tees = db.tees ∧ db2.holes = db.holes
  ∧ db2.next_tee_rowid = db.next_tee_rowid

/-- The network calls an iteration adds to the log: ext is the block of
appended entries, every one of them is the current id, no entry appears
when the id was already attempted, and when the id is fresh (and at least
one retry attempt is configured) the block starts with the id. -/
abbrev ExtOk (cfg : Config) (cid : Int) (env env2 : Env) (ext : List Int) : Prop :=
  env2.netLog = env.netLog ++ ext ∧ (∀ x ∈ ext, x = cid)
  ∧ (is_course_already_attempted cid env.db = true → ext = [])
  ∧ (is_course_already_attempted cid env.db = false →
      1 ≤ cfg.RETRY_MAX_ATTEMPTS → ∃ tail, ext = cid :: tail)

/-- C7: starting from a fresh state, if ids 1, 2, 3 answer 200, 200, 404
and id 4 answers 429 once then 200, then after those four ids the
persisted state is last_id 4, consecutive_misses 0, total_saved 3,
exactly 4 attempt rows and exactly 5 call records (the extra one from the
throttled retry on id 4). -/
theorem scenario_1_to_4_final_state :
    (scrape defaultConfig scenarioOracle 4 initEnv).2.db.metadata.last_scraped_id = 4
    ∧ (scrape defaultConfig scenarioOracle 4 initEnv).2.db.metadata.consecutive_404s = 0
    ∧ (scrape defaultConfig scenarioOracle 4 initEnv).2.db.metadata.total_courses_scraped = 3
    ∧ (scrape defaultConfig scenarioOracle 4 initEnv).2.db.scrape_attempts.length = 4
    ∧ (scrape defaultConfig scenarioOracle 4 initEnv).2.db.api_calls.length = 5 := by
  decide

/-- C10: update_scrape_metadata modifies exactly the passed fields plus
last_updated on the singleton metadata row; every field not passed keeps
its previous value and no other table is touched. -/
theorem update_scrape_metadata_frame (db : DB) (kw : MetaKwargs) (now : Int) :
    (update_scrape_metadata kw now db).metadata.last_scraped_id
        = kw.last_scraped_id.getD db.metadata.last_scraped_id
    ∧ (update_scrape_metadata kw now db).metadata.consecutive_404s
        = kw.consecutive_404s.getD db.metadata.consecutive_404s
    ∧ (update_scrape_metadata kw now db).metadata.total_courses_scraped
        = kw.total_courses_scraped.getD db.metadata.total_courses_scraped
    ∧ (update_scrape_metadata kw now db).metadata.scraping_complete
        = kw.scraping_complete.getD db.metadata.scraping_complete
    ∧ (update_scrape_metadata kw now db).metadata.last_updated = now
    ∧ (update_scrape_metadata kw now db).metadata.created_at = db.metadata.created_at
    ∧ (update_scrape_metadata kw now db).api_calls = db.api_calls
    ∧ (update_scrape_metadata kw now db).scrape_attempts = db.scrape_attempts
    ∧ (update_scrape_metadata kw now db).courses = db.courses
    ∧ (update_scrape_metadata kw now db).locations = db.locations
    ∧ (update_scrape_metadata kw now db).tees = db.tees
    ∧ (update_scrape_metadata kw now db).holes = db.holes
    ∧ (update_scrape_metadata kw now db).next_tee_rowid = db.next_tee_rowid :=
  ⟨rfl, rfl, rfl, rfl, rfl, rfl, rfl, rfl, rfl, rfl, rfl, rfl, rfl⟩

/-- C2 counterexample: with a quota of 1 and an empty ledger the allowed
check passes, yet the gated fetch (throttled once, then found) performs
two network calls, and immediately after it the window holds 2 calls,
exceeding max_calls_per_window; so the quota bound as claimed is false,
and so is the claim that allowed() is consulted before every remote
fetch. -/
theorem quota_exceeded_after_gated_fetch :
    check_rate_limit cfgMax1 initEnv = true
    ∧ cfgMax1.MAX_CALLS_PER_DAY <
        get_api_calls_in_window cfgMax1
          (fetch_course cfgMax1 throttleOnceOracle 1 initEnv).2.now
          (fetch_course cfgMax1 throttleOnceOracle 1 initEnv).2.db := by
  decide

/-- C3 counterexample: the 429 branch continues into the next value of
the for-loop counter, so three consecutive 429s exhaust the whole attempt
budget and the fetch gives up and returns None, even though the fourth
call would have answered 200; a throttled retry therefore does consume a
retry-attempt slot, contradicting the claim. -/
theorem throttled_retry_consumes_attempt_slot :
    (fetch_course defaultConfig throttleThriceOracle 1 initEnv).1 = FetchResult.absent
    ∧ (fetch_course defaultConfig throttleThriceOracle 1 initEnv).2.netLog.length = 3 := by
  decide

/-- C4 counterexample: a 403 response is not the fatal branch — only 401
is.  Under an all-403 oracle the fetcher retries the same id three times
(three logged gets), the run does not abort, an AttemptRecord with status
404 is written for the in-flight id, and CrawlPosition advances to it;
every one of these contradicts the claim for 403. -/
theorem forbidden_403_is_retried_not_fatal :
    (scrape defaultConfig status403Oracle 1 initEnv).1 = ScrapeOutcome.outOfFuel
    ∧ (scrape defaultConfig status403Oracle 1 initEnv).2.netLog = [1, 1, 1]
    ∧ is_course_already_attempted 1 (scrape defaultConfig status403Oracle 1 initEnv).2.db = true
    ∧ (scrape defaultConfig status403Oracle 1 initEnv).2.db.metadata.last_scraped_id = 1 := by
  decide

/-- C8 counterexample: an attempt that ends in a network exception issues
a session.get but never reaches record_api_call, so three such attempts
leave the Call Ledger empty — not one record per attempt as claimed. -/
theorem network_exception_records_no_call :
    (fetch_course defaultConfig netErrorOracle 1 initEnv).2.netLog.length = 3
    ∧ (fetch_course defaultConfig netErrorOracle 1 initEnv).2.db.api_calls.length = 0 := by
  decide

theorem sameExceptCalls_refl (db : DB) : SameExceptCalls db db :=
  ⟨rfl, rfl, rfl, rfl, rfl, rfl, rfl⟩

theorem sameExceptCalls_trans {a b c : DB}
    (h1 : SameExceptCalls a b) (h2 : SameExceptCalls b c) : SameExceptCalls a c := by
  obtain ⟨m1, s1, c1, l1, t1, o1, n1⟩ := h1
  obtain ⟨m2, s2, c2, l2, t2, o2, n2⟩ := h2
  exact ⟨m2.trans m1, s2.trans s1, c2.trans c1, l2.trans l1, t2.trans t1,
    o2.trans o1, n2.trans n1⟩

theorem sameExceptCalls_attempted {db db2 : DB} (h : SameExceptCalls db db2) (i : Int) :
    is_course_already_attempted i db2 = is_course_already_attempted i db := by
  unfold is_course_already_attempted
  rw [h.2.1]

theorem record_api_call_frame (now : Int) (db : DB) :
    SameExceptCalls db (record_api_call now db) :=
  ⟨rfl, rfl, rfl, rfl, rfl, rfl, rfl⟩

theorem cleanup_frame (cfg : Config) (now : Int) (db : DB) :
    SameExceptCalls db (cleanup_old_api_calls cfg now db) :=
  ⟨rfl, rfl, rfl, rfl, rfl, rfl, rfl⟩

theorem wait_netLog (cfg : Config) (env : Env) :
    (wait_for_rate_limit_window cfg env).netLog = env.netLog := by
  unfold wait_for_rate_limit_window
  cases get_oldest_api_call_in_window cfg env.now env.db with
  | none => rfl
  | some t =>
    dsimp only
    split
    · rfl
    · rfl

theorem wait_now (cfg : Config) (env : Env) :
    (wait_for_rate_limit_window cfg env).db = env.db
    ∨ SameExceptCalls env.db (wait_for_rate_limit_window cfg env).db := by
  unfold wait_for_rate_limit_window
  cases get_oldest_api_call_in_window cfg env.now env.db with
  | none => exact Or.inl rfl
  | some t =>
    dsimp only
    split
    · exact Or.inl rfl
    · exact Or.inr (cleanup_frame cfg env.now env.db)

theorem wait_frame (cfg : Config) (env : Env) :
    SameExceptCalls env.db (wait_for_rate_limit_window cfg env).db := by
  rcases wait_now cfg env with h | h
  · rw [h]; exact sameExceptCalls_refl _
  · exact h

theorem recordCall_frame (env : Env) : SameExceptCalls env.db (recordCall env).db :=
  record_api_call_frame env.now env.db

theorem sleepMs_netLog (ms : Nat) (env : Env) : (sleepMs ms env).netLog = env.netLog := rfl

theorem sleepMs_db (ms : Nat) (env : Env) : (sleepMs ms env).db = env.db := rfl

theorem recordCall_netLog (env : Env) : (recordCall env).netLog = env.netLog := rfl

theorem fetch_course_from_frame (cfg : Config) (oracle : Oracle) (course_id : Int) :
    ∀ (rem attempt : Nat) (env : Env),
      SameExceptCalls env.db (fetch_course_from cfg oracle course_id attempt rem env).2.db := by
  intro rem
  induction rem with
  | zero => intro attempt env; exact sameExceptCalls_refl _
  | succ r ih =>
    intro attempt env
    simp only [fetch_course_from, httpGet]
    cases h : oracle course_id attempt <;> simp only
    case ok d => exact recordCall_frame _
    case notFound => exact recordCall_frame _
    case unauthorized => exact recordCall_frame _
    case throttled =>
      exact sameExceptCalls_trans (record_api_call_frame env.now env.db) (ih _ _)
    case otherStatus code =>
      split
      · exact sameExceptCalls_trans (record_api_call_frame env.now env.db) (ih _ _)
      · exact recordCall_frame _
    case netError =>
      split
      · exact ih _ _
      · exact sameExceptCalls_refl _

theorem fetch_course_frame (cfg : Config) (oracle : Oracle) (course_id : Int) (env : Env) :
    SameExceptCalls env.db (fetch_course cfg oracle course_id env).2.db :=
  fetch_course_from_frame cfg oracle course_id _ _ env

theorem fetch_course_from_netLog (cfg : Config) (oracle : Oracle) (course_id : Int) :
    ∀ (rem attempt : Nat) (env : Env), ∃ ext,
      (fetch_course_from cfg oracle course_id attempt rem env).2.netLog
        = env.netLog ++ ext
      ∧ ∀ x ∈ ext, x = course_id := by
  intro rem
  induction rem with
  | zero =>
    intro attempt env
    exact ⟨[], by simp [fetch_course_from], by simp⟩
  | succ r ih =>
    intro attempt env
    simp only [fetch_course_from, httpGet]
    cases h : oracle course_id attempt <;> simp only
    case ok d => exact ⟨[course_id], rfl, by simp⟩
    case notFound => exact ⟨[course_id], rfl, by simp⟩
    case unauthorized => exact ⟨[course_id], rfl, by simp⟩
    case throttled =>
      obtain ⟨ext, hext, hall⟩ := ih (attempt + 1)
        (sleepMs cfg.RATE_LIMIT_SLEEP_MS (recordCall { env with netLog := env.netLog ++ [course_id] }))
      refine ⟨course_id :: ext, ?_, ?_⟩
      · rw [hext]; simp [sleepMs_netLog, recordCall_netLog]
      · intro x hx
        rcases List.mem_cons.mp hx with h1 | h1
        · exact h1
        · exact hall x h1
    case otherStatus code =>
      split
      · obtain ⟨ext, hext, hall⟩ := ih (attempt + 1)
          (sleepMs (cfg.RETRY_DELAY_MS * attempt)
            (recordCall { env with netLog := env.netLog ++ [course_id] }))
        refine ⟨course_id :: ext, ?_, ?_⟩
        · rw [hext]; simp [sleepMs_netLog, recordCall_netLog]
        · intro x hx
          rcases List.mem_cons.mp hx with h1 | h1
          · exact h1
          · exact hall x h1
      · exact ⟨[course_id], rfl, by simp⟩
    case netError =>
      split
      · obtain ⟨ext, hext, hall⟩ := ih (attempt + 1)
          (sleepMs (cfg.RETRY_DELAY_MS * attempt) { env with netLog := env.netLog ++ [course_id] })
        refine ⟨course_id :: ext, ?_, ?_⟩
        · rw [hext]; simp [sleepMs_netLog, recordCall_netLog]
        · intro x hx
          rcases List.mem_cons.mp hx with h1 | h1
          · exact h1
          · exact hall x h1
      · exact ⟨[course_id], rfl, by simp⟩

theorem fetch_course_from_netLog_cons (cfg : Config) (oracle : Oracle) (course_id : Int)
    (rem attempt : Nat) (env : Env) (h : 1 ≤ rem) :
    ∃ tail, (fetch_course_from cfg oracle course_id attempt rem env).2.netLog
      = env.netLog ++ course_id :: tail := by
  obtain ⟨r, rfl⟩ : ∃ r, rem = r + 1 := ⟨rem - 1, by omega⟩
  simp only [fetch_course_from, httpGet]
  cases hresp : oracle course_id attempt <;> simp only
  case ok d => exact ⟨[], rfl⟩
  case notFound => exact ⟨[], rfl⟩
  case unauthorized => exact ⟨[], rfl⟩
  case throttled =>
    obtain ⟨ext2, hext2, _⟩ := fetch_course_from_netLog cfg oracle course_id r (attempt + 1)
      (sleepMs cfg.RATE_LIMIT_SLEEP_MS (recordCall { env with netLog := env.netLog ++ [course_id] }))
    exact ⟨ext2, by rw [hext2]; simp [sleepMs_netLog, recordCall_netLog]⟩
  case otherStatus code =>
    split
    · obtain ⟨ext2, hext2, _⟩ := fetch_course_from_netLog cfg oracle course_id r (attempt + 1)
        (sleepMs (cfg.RETRY_DELAY_MS * attempt)
          (recordCall { env with netLog := env.netLog ++ [course_id] }))
      exact ⟨ext2, by rw [hext2]; simp [sleepMs_netLog, recordCall_netLog]⟩
    · exact ⟨[], rfl⟩
  case netError =>
    split
    · obtain ⟨ext2, hext2, _⟩ := fetch_course_from_netLog cfg oracle course_id r (attempt + 1)
        (sleepMs (cfg.RETRY_DELAY_MS * attempt) { env with netLog := env.netLog ++ [course_id] })
      exact ⟨ext2, by rw [hext2]; simp [sleepMs_netLog, recordCall_netLog]⟩
    · exact ⟨[], rfl⟩

theorem fetch_course_netLog (cfg : Config) (oracle : Oracle) (course_id : Int) (env : Env) :
    ∃ ext, (fetch_course cfg oracle course_id env).2.netLog = env.netLog ++ ext
      ∧ ∀ x ∈ ext, x = course_id :=
  fetch_course_from_netLog cfg oracle course_id cfg.RETRY_MAX_ATTEMPTS 1 env

theorem fetch_course_netLog_cons (cfg : Config) (oracle : Oracle) (course_id : Int)
    (env : Env) (h : 1 ≤ cfg.RETRY_MAX_ATTEMPTS) :
    ∃ tail, (fetch_course cfg oracle course_id env).2.netLog
      = env.netLog ++ course_id :: tail :=
  fetch_course_from_netLog_cons cfg oracle course_id cfg.RETRY_MAX_ATTEMPTS 1 env h

theorem record_scrape_attempt_metadata (cid : Int) (s : Nat) (b : Bool) (t : Int) (db : DB) :
    (record_scrape_attempt cid s b t db).metadata = db.metadata := rfl

theorem record_scrape_attempt_keeps (i cid : Int) (s : Nat) (b : Bool) (t : Int) (db : DB)
    (h : is_course_already_attempted i db = true) :
    is_course_already_attempted i (record_scrape_attempt cid s b t db) = true := by
  simp only [is_course_already_attempted, List.any_eq_true] at h ⊢
  obtain ⟨r, hr, hri⟩ := h
  simp only [record_scrape_attempt, List.mem_append]
  by_cases hic : i = cid
  · refine ⟨{ course_id := cid, status_code := s, success := b, attempted_at := t },
      Or.inr (by simp), ?_⟩
    simp [hic]
  · refine ⟨r, Or.inl ?_, hri⟩
    rw [List.mem_filter]
    refine ⟨hr, ?_⟩
    have hreq : r.course_id = i := by simpa using hri
    simp [bne_iff_ne, hreq, hic]

theorem record_scrape_attempt_self (cid : Int) (s : Nat) (b : Bool) (t : Int) (db : DB) :
    is_course_already_attempted cid (record_scrape_attempt cid s b t db) = true := by
  simp [is_course_already_attempted, record_scrape_attempt, List.any_append]

theorem insertTees_ok_frame (course_id : Int) (gender : Gender) :
    ∀ (ts : List TeeData) (db db2 : DB), insertTees course_id gender ts db = .ok db2 →
      db2.metadata = db.metadata ∧ db2.scrape_attempts = db.scrape_attempts := by
  intro ts
  induction ts with
  | nil =>
    intro db db2 h
    simp only [insertTees] at h
    cases h
    exact ⟨rfl, rfl⟩
  | cons t rest ih =>
    intro db db2 h
    simp only [insertTees] at h
    cases ht : t.tee_name with
    | none => rw [ht] at h; cases h
    | some nm =>
      rw [ht] at h
      dsimp only at h
      cases hh : insertHoles db.next_tee_rowid 1 t.holes with
      | error e => rw [hh] at h; cases h
      | ok hs =>
        rw [hh] at h
        obtain ⟨h1, h2⟩ := ih _ _ h
        exact ⟨h1, h2⟩

theorem save_course_tees_ok_frame (course_id : Int) (tsm tsf : List TeeData)
    (now : Int) (dbA db2 : DB)
    (h : save_course_tees course_id tsm tsf now dbA = .ok db2) :
    db2.scrape_attempts = dbA.scrape_attempts
    ∧ db2.metadata.last_scraped_id = dbA.metadata.last_scraped_id
    ∧ db2.metadata.scraping_complete = dbA.metadata.scraping_complete := by
  unfold save_course_tees at h
  cases hm : insertTees course_id Gender.male tsm dbA with
  | error e => rw [hm] at h; cases h
  | ok db3 =>
    rw [hm] at h
    dsimp only at h
    cases hf : insertTees course_id Gender.female tsf db3 with
    | error e => rw [hf] at h; cases h
    | ok db4 =>
      rw [hf] at h
      dsimp only at h
      cases h
      obtain ⟨hm1, hm2⟩ := insertTees_ok_frame course_id Gender.male tsm dbA db3 hm
      obtain ⟨hf1, hf2⟩ := insertTees_ok_frame course_id Gender.female tsf db3 db4 hf
      refine ⟨?_, ?_, ?_⟩
      · exact hf2.trans hm2
      · show db4.metadata.last_scraped_id = dbA.metadata.last_scraped_id
        rw [hf1, hm1]
      · show db4.metadata.scraping_complete = dbA.metadata.scraping_complete
        rw [hf1, hm1]

theorem save_course_ok_frame (d : CourseData) (t : Int) (db db2 : DB)
    (h : save_course d t db = .ok db2) :
    db2.scrape_attempts = db.scrape_attempts
    ∧ db2.metadata.last_scraped_id = db.metadata.last_scraped_id
    ∧ db2.metadata.scraping_complete = db.metadata.scraping_complete := by
  unfold save_course at h
  dsimp only at h
  cases hid : (d.course.getD emptyCourseFields).id with
  | none => rw [hid] at h; cases h
  | some cid =>
    rw [hid] at h
    dsimp only at h
    by_cases hz : cid = 0
    · rw [if_pos hz] at h; cases h
    · rw [if_neg hz] at h
      cases hloc : (d.course.getD emptyCourseFields).location with
      | none =>
        rw [hloc] at h
        dsimp only at h
        have hres := save_course_tees_ok_frame _ _ _ _ _ _ h
        exact hres
      | some loc =>
        rw [hloc] at h
        dsimp only at h
        have hres := save_course_tees_ok_frame _ _ _ _ _ _ h
        exact hres

theorem attempted_congr (i : Int) {db db2 : DB}
    (h : db2.scrape_attempts = db.scrape_attempts) :
    is_course_already_attempted i db2 = is_course_already_attempted i db := by
  unfold is_course_already_attempted
  rw [h]

theorem advance_cursor_eq (cfg : Config) (cid : Int) (c : Nat) (env : Env) :
    ∃ env2, advance_cursor cfg cid c env = .next (cid + 1) c env2
      ∧ env2.netLog = env.netLog ∧ SameExceptCalls env.db env2.db := by
  unfold advance_cursor
  dsimp only
  split
  · exact ⟨_, rfl, rfl, cleanup_frame cfg (env.now + cfg.REQUEST_DELAY_MS) env.db⟩
  · exact ⟨_, rfl, rfl, sameExceptCalls_refl env.db⟩

theorem apply_position_update_netLog (cid : Int) (c2 : Nat) (env3 : Env) :
    (apply_position_update cid c2 env3).netLog = env3.netLog := rfl

theorem apply_position_update_attempted (cid : Int) (c2 : Nat) (env3 : Env) (i : Int) :
    is_course_already_attempted i (apply_position_update cid c2 env3).db
      = is_course_already_attempted i env3.db := rfl

theorem apply_position_update_complete (cid : Int) (c2 : Nat) (env3 : Env) :
    (apply_position_update cid c2 env3).db.metadata.scraping_complete
      = env3.db.metadata.scraping_complete := rfl

theorem apply_position_update_last (cid : Int) (c2 : Nat) (env3 : Env) :
    (apply_position_update cid c2 env3).db.metadata.last_scraped_id = cid := rfl

theorem record_payload_outcome_netLog (cid : Int) (d : CourseData) (env2 : Env) :
    (record_payload_outcome cid d env2).netLog = env2.netLog := by
  unfold record_payload_outcome
  split <;> rfl

theorem record_payload_outcome_complete (cid : Int) (d : CourseData) (env2 : Env) :
    (record_payload_outcome cid d env2).db.metadata.scraping_complete
      = env2.db.metadata.scraping_complete := by
  unfold record_payload_outcome
  split
  · rename_i db1 heq
    exact (save_course_ok_frame d env2.now env2.db db1 heq).2.2
  · rfl

theorem record_payload_outcome_keeps (cid : Int) (d : CourseData) (env2 : Env) (i : Int)
    (hi : is_course_already_attempted i env2.db = true) :
    is_course_already_attempted i (record_payload_outcome cid d env2).db = true := by
  unfold record_payload_outcome
  split
  · rename_i db1 heq
    show is_course_already_attempted i (record_scrape_attempt cid 200 true env2.now db1) = true
    apply record_scrape_attempt_keeps
    rw [attempted_congr i (save_course_ok_frame d env2.now env2.db db1 heq).1]
    exact hi
  · show is_course_already_attempted i
      (record_scrape_attempt cid 200 false env2.now env2.db) = true
    exact record_scrape_attempt_keeps _ _ _ _ _ _ hi

theorem record_absent_outcome_netLog (cid : Int) (env2 : Env) :
    (record_absent_outcome cid env2).netLog = env2.netLog := rfl

theorem handle_fetch_spec (cfg : Config) (oracle : Oracle) (cid : Int) (c : Nat) (env1 : Env) :
    (∃ env2, handle_fetch cfg oracle cid c env1 = .abort env2
        ∧ env2.db.metadata = env1.db.metadata
        ∧ env2.db.scrape_attempts = env1.db.scrape_attempts
        ∧ ∃ ext, env2.netLog = env1.netLog ++ ext ∧ (∀ x ∈ ext, x = cid)
            ∧ (1 ≤ cfg.RETRY_MAX_ATTEMPTS → ∃ tail, ext = cid :: tail))
    ∨ (∃ c2 env2, handle_fetch cfg oracle cid c env1 = .next (cid + 1) c2 env2
        ∧ (∃ ext, env2.netLog = env1.netLog ++ ext ∧ (∀ x ∈ ext, x = cid)
            ∧ (1 ≤ cfg.RETRY_MAX_ATTEMPTS → ∃ tail, ext = cid :: tail))
        ∧ (∀ i, is_course_already_attempted i env1.db = true →
              is_course_already_attempted i env2.db = true)
        ∧ env2.db.metadata.scraping_complete = env1.db.metadata.scraping_complete
        ∧ env2.db.metadata.last_scraped_id = cid) := by
  rcases hf : fetch_course cfg oracle cid env1 with ⟨fr, envF⟩
  have hframe : SameExceptCalls env1.db envF.db := by
    have hfr := fetch_course_frame cfg oracle cid env1
    rw [hf] at hfr
    exact hfr
  have hnet : ∃ ext, envF.netLog = env1.netLog ++ ext ∧ (∀ x ∈ ext, x = cid)
      ∧ (1 ≤ cfg.RETRY_MAX_ATTEMPTS → ∃ tail, ext = cid :: tail) := by
    obtain ⟨ext, hext, hall⟩ := fetch_course_netLog cfg oracle cid env1
    rw [hf] at hext
    refine ⟨ext, hext, hall, ?_⟩
    intro hr
    obtain ⟨tail, htail⟩ := fetch_course_netLog_cons cfg oracle cid env1 hr
    rw [hf] at htail
    exact ⟨tail, List.append_cancel_left (hext.symm.trans htail)⟩
  unfold handle_fetch
  rw [hf]
  cases fr with
  | authError =>
    left
    exact ⟨envF, rfl, hframe.1, hframe.2.1, hnet⟩
  | payload d =>
    right
    obtain ⟨env5, hadv, hadvLog, hadvDB⟩ := advance_cursor_eq cfg cid 0
      (apply_position_update cid 0 (record_payload_outcome cid d envF))
    refine ⟨0, env5, hadv, ?_, ?_, ?_, ?_⟩
    · obtain ⟨ext, hext, hall, hcons⟩ := hnet
      refine ⟨ext, ?_, hall, hcons⟩
      rw [hadvLog, apply_position_update_netLog, record_payload_outcome_netLog, hext]
    · intro i hi
      rw [sameExceptCalls_attempted hadvDB i, apply_position_update_attempted]
      exact record_payload_outcome_keeps cid d envF i
        (by rw [sameExceptCalls_attempted hframe i]; exact hi)
    · rw [hadvDB.1, apply_position_update_complete, record_payload_outcome_complete, hframe.1]
    · rw [hadvDB.1, apply_position_update_last]
  | absent =>
    right
    obtain ⟨env5, hadv, hadvLog, hadvDB⟩ := advance_cursor_eq cfg cid (c + 1)
      (apply_position_update cid (c + 1) (record_absent_outcome cid envF))
    refine ⟨c + 1, env5, hadv, ?_, ?_, ?_, ?_⟩
    · obtain ⟨ext, hext, hall, hcons⟩ := hnet
      refine ⟨ext, ?_, hall, hcons⟩
      rw [hadvLog, apply_position_update_netLog, record_absent_outcome_netLog, hext]
    · intro i hi
      rw [sameExceptCalls_attempted hadvDB i, apply_position_update_attempted]
      apply record_scrape_attempt_keeps
      rw [sameExceptCalls_attempted hframe i]
      exact hi
    · rw [hadvDB.1, apply_position_update_complete]
      exact hframe.1 ▸ rfl
    · rw [hadvDB.1, apply_position_update_last]

theorem scrape_iter_spec_aux (cfg : Config) (oracle : Oracle) (cid : Int) (c : Nat)
    (env env1 : Env) (hnl : env1.netLog = env.netLog)
    (hdb : SameExceptCalls env.db env1.db)
    (hif : scrape_iter cfg oracle cid c env = handle_fetch cfg oracle cid c env1)
    (hskipf : is_course_already_attempted cid env.db = false) :
    (∃ env2, scrape_iter cfg oracle cid c env = .abort env2
        ∧ env2.db.metadata = env.db.metadata
        ∧ env2.db.scrape_attempts = env.db.scrape_attempts
        ∧ ∃ ext, ExtOk cfg cid env env2 ext)
    ∨ (∃ c2 env2, scrape_iter cfg oracle cid c env = .next (cid + 1) c2 env2
        ∧ (∃ ext, ExtOk cfg cid env env2 ext)
        ∧ (∀ i, is_course_already_attempted i env.db = true →
              is_course_already_attempted i env2.db = true)
        ∧ env2.db.metadata.scraping_complete = env.db.metadata.scraping_complete
        ∧ (env2 = env ∨ env2.db.metadata.last_scraped_id = cid)) := by
  rcases handle_fetch_spec cfg oracle cid c env1 with
    ⟨env2, heq, hmeta, hatt, ext, hext, hall, hcons⟩ |
    ⟨c2, env2, heq, ⟨ext, hext, hall, hcons⟩, hmono, hcomp, hlast⟩
  · left
    refine ⟨env2, hif.trans heq, hmeta.trans hdb.1, hatt.trans hdb.2.1, ext, ?_, hall, ?_, ?_⟩
    · rw [hext, hnl]
    · intro htrue
      rw [hskipf] at htrue
      cases htrue
    · intro _ hr
      exact hcons hr
  · right
    refine ⟨c2, env2, hif.trans heq, ⟨ext, ?_, hall, ?_, ?_⟩, ?_, ?_, Or.inr hlast⟩
    · rw [hext, hnl]
    · intro htrue
      rw [hskipf] at htrue
      cases htrue
    · intro _ hr
      exact hcons hr
    · intro i hi
      apply hmono
      rw [sameExceptCalls_attempted hdb i]
      exact hi
    · exact hcomp.trans (congrArg Metadata.scraping_complete hdb.1)

theorem scrape_iter_spec (cfg : Config) (oracle : Oracle) (cid : Int) (c : Nat) (env : Env) :
    (∃ env2, scrape_iter cfg oracle cid c env = .abort env2
        ∧ env2.db.metadata = env.db.metadata
        ∧ env2.db.scrape_attempts = env.db.scrape_attempts
        ∧ ∃ ext, ExtOk cfg cid env env2 ext)
    ∨ (∃ c2 env2, scrape_iter cfg oracle cid c env = .next (cid + 1) c2 env2
        ∧ (∃ ext, ExtOk cfg cid env env2 ext)
        ∧ (∀ i, is_course_already_attempted i env.db = true →
              is_course_already_attempted i env2.db = true)
        ∧ env2.db.metadata.scraping_complete = env.db.metadata.scraping_complete
        ∧ (env2 = env ∨ env2.db.metadata.last_scraped_id = cid)) := by
  by_cases hskip : is_course_already_attempted cid env.db = true
  · right
    refine ⟨c, env, ?_, ⟨[], ?_, ?_, ?_, ?_⟩, fun i h => h, rfl, Or.inl rfl⟩
    · simp [scrape_iter, hskip]
    · simp
    · simp
    · intro _
      rfl
    · intro hfalse _
      rw [hskip] at hfalse
      cases hfalse
  · have hskipf : is_course_already_attempted cid env.db = false := by
      simpa using hskip
    by_cases hrl : check_rate_limit cfg env = true
    · exact scrape_iter_spec_aux cfg oracle cid c env env rfl (sameExceptCalls_refl _)
        (by simp [scrape_iter, hskipf, hrl]) hskipf
    · have hrlf : check_rate_limit cfg env = false := by simpa using hrl
      refine scrape_iter_spec_aux cfg oracle cid c env
        { wait_for_rate_limit_window cfg env with db := cleanup_old_api_calls cfg (wait_for_rate_limit_window cfg env).now (wait_for_rate_limit_window cfg env).db }
        ?_ ?_ ?_ hskipf
      · exact wait_netLog cfg env
      · exact sameExceptCalls_trans (wait_frame cfg env)
          (cleanup_frame cfg (wait_for_rate_limit_window cfg env).now (wait_for_rate_limit_window cfg env).db)
      · simp [scrape_iter, hskipf, hrlf]

theorem ext_not_mem {cid : Int} {env : Env} {ext : List Int}
    (hall : ∀ x ∈ ext, x = cid)
    (hskipext : is_course_already_attempted cid env.db = true → ext = [])
    {i : Int} (hi : is_course_already_attempted i env.db = true) : i ∉ ext := by
  intro hmem
  by_cases hcid : is_course_already_attempted cid env.db = true
  · rw [hskipext hcid] at hmem
    simp at hmem
  · have hic : i = cid := hall i hmem
    rw [hic] at hi
    exact hcid hi

theorem scrape_loop_netLog (cfg : Config) (oracle : Oracle) :
    ∀ (fuel : Nat) (cid : Int) (c : Nat) (env : Env),
      ∃ ext, (scrape_loop cfg oracle fuel cid c env).2.netLog = env.netLog ++ ext
        ∧ ∀ x ∈ ext, cid ≤ x := by
  intro fuel
  induction fuel with
  | zero =>
    intro cid c env
    exact ⟨[], by simp [scrape_loop], by simp⟩
  | succ f ih =>
    intro cid c env
    by_cases hc : c < cfg.CONSECUTIVE_404_LIMIT
    · rcases scrape_iter_spec cfg oracle cid c env with
        ⟨env2, heq, _, _, ext, hext, hall, _, _⟩ |
        ⟨c2, env2, heq, ⟨ext, hext, hall, _, _⟩, _, _, _⟩
      · have hred : scrape_loop cfg oracle (f + 1) cid c env = (.aborted, env2) := by
          simp [scrape_loop, hc, heq]
        rw [hred]
        exact ⟨ext, hext, fun x hx => le_of_eq (hall x hx).symm⟩
      · have hred : scrape_loop cfg oracle (f + 1) cid c env
            = scrape_loop cfg oracle f (cid + 1) c2 env2 := by
          simp [scrape_loop, hc, heq]
        rw [hred]
        obtain ⟨ext2, hext2, hlb2⟩ := ih (cid + 1) c2 env2
        refine ⟨ext ++ ext2, ?_, ?_⟩
        · rw [hext2, hext, List.append_assoc]
        · intro x hx
          rcases List.mem_append.mp hx with h1 | h1
          · exact le_of_eq (hall x h1).symm
          · have := hlb2 x h1
            omega
    · have hred : scrape_loop cfg oracle (f + 1) cid c env
          = (.done, { env with db := update_scrape_metadata { scraping_complete := some true } env.now env.db }) := by
        simp [scrape_loop, hc]
      rw [hred]
      exact ⟨[], by simp, by simp⟩

theorem scrape_loop_no_refetch (cfg : Config) (oracle : Oracle) :
    ∀ (fuel : Nat) (cid : Int) (c : Nat) (env : Env) (i : Int),
      is_course_already_attempted i env.db = true →
      ∃ ext, (scrape_loop cfg oracle fuel cid c env).2.netLog = env.netLog ++ ext
        ∧ i ∉ ext := by
  intro fuel
  induction fuel with
  | zero =>
    intro cid c env i _
    exact ⟨[], by simp [scrape_loop], by simp⟩
  | succ f ih =>
    intro cid c env i hi
    by_cases hc : c < cfg.CONSECUTIVE_404_LIMIT
    · rcases scrape_iter_spec cfg oracle cid c env with
        ⟨env2, heq, _, _, ext, hext, hall, hskipext, _⟩ |
        ⟨c2, env2, heq, ⟨ext, hext, hall, hskipext, _⟩, hmono, _, _⟩
      · have hred : scrape_loop cfg oracle (f + 1) cid c env = (.aborted, env2) := by
          simp [scrape_loop, hc, heq]
        rw [hred]
        exact ⟨ext, hext, ext_not_mem hall hskipext hi⟩
      · have hred : scrape_loop cfg oracle (f + 1) cid c env
            = scrape_loop cfg oracle f (cid + 1) c2 env2 := by
          simp [scrape_loop, hc, heq]
        rw [hred]
        obtain ⟨ext2, hext2, hni2⟩ := ih (cid + 1) c2 env2 i (hmono i hi)
        refine ⟨ext ++ ext2, by rw [hext2, hext, List.append_assoc], ?_⟩
        intro hmem
        rcases List.mem_append.mp hmem with h1 | h1
        · exact ext_not_mem hall hskipext hi h1
        · exact hni2 h1
    · have hred : scrape_loop cfg oracle (f + 1) cid c env
          = (.done, { env with db := update_scrape_metadata { scraping_complete := some true } env.now env.db }) := by
        simp [scrape_loop, hc]
      rw [hred]
      exact ⟨[], by simp, by simp⟩

theorem scrape_loop_last_mono (cfg : Config) (oracle : Oracle) :
    ∀ (fuel : Nat) (cid : Int) (c : Nat) (env : Env),
      env.db.metadata.last_scraped_id < cid →
      env.db.metadata.last_scraped_id
        ≤ (scrape_loop cfg oracle fuel cid c env).2.db.metadata.last_scraped_id := by
  intro fuel
  induction fuel with
  | zero =>
    intro cid c env _
    exact le_of_eq rfl
  | succ f ih =>
    intro cid c env hlt
    by_cases hc : c < cfg.CONSECUTIVE_404_LIMIT
    · rcases scrape_iter_spec cfg oracle cid c env with
        ⟨env2, heq, hmeta, _, _⟩ |
        ⟨c2, env2, heq, _, _, _, hlastd⟩
      · have hred : scrape_loop cfg oracle (f + 1) cid c env = (.aborted, env2) := by
          simp [scrape_loop, hc, heq]
        rw [hred]
        show env.db.metadata.last_scraped_id ≤ env2.db.metadata.last_scraped_id
        rw [hmeta]
      · have hred : scrape_loop cfg oracle (f + 1) cid c env
            = scrape_loop cfg oracle f (cid + 1) c2 env2 := by
          simp [scrape_loop, hc, heq]
        rw [hred]
        rcases hlastd with rfl | hlast
        · exact ih (cid + 1) c2 env2 (by omega)
        · have h2 : env2.db.metadata.last_scraped_id < cid + 1 := by
            rw [hlast]; omega
          exact le_trans (by rw [hlast]; exact le_of_lt hlt) (ih (cid + 1) c2 env2 h2)
    · have hred : scrape_loop cfg oracle (f + 1) cid c env
          = (.done, { env with db := update_scrape_metadata { scraping_complete := some true } env.now env.db }) := by
        simp [scrape_loop, hc]
      rw [hred]
      exact le_of_eq rfl

theorem scrape_loop_complete_mono (cfg : Config) (oracle : Oracle) :
    ∀ (fuel : Nat) (cid : Int) (c : Nat) (env : Env),
      env.db.metadata.scraping_complete = true →
      (scrape_loop cfg oracle fuel cid c env).2.db.metadata.scraping_complete = true := by
  intro fuel
  induction fuel with
  | zero =>
    intro cid c env h
    exact h
  | succ f ih =>
    intro cid c env h
    by_cases hc : c < cfg.CONSECUTIVE_404_LIMIT
    · rcases scrape_iter_spec cfg oracle cid c env with
        ⟨env2, heq, hmeta, _, _⟩ |
        ⟨c2, env2, heq, _, _, hcomp, _⟩
      · have hred : scrape_loop cfg oracle (f + 1) cid c env = (.aborted, env2) := by
          simp [scrape_loop, hc, heq]
        rw [hred]
        show env2.db.metadata.scraping_complete = true
        rw [hmeta]
        exact h
      · have hred : scrape_loop cfg oracle (f + 1) cid c env
            = scrape_loop cfg oracle f (cid + 1) c2 env2 := by
          simp [scrape_loop, hc, heq]
        rw [hred]
        exact ih (cid + 1) c2 env2 (hcomp.trans h)
    · have hred : scrape_loop cfg oracle (f + 1) cid c env
          = (.done, { env with db := update_scrape_metadata { scraping_complete := some true } env.now env.db }) := by
        simp [scrape_loop, hc]
      rw [hred]
      rfl

theorem scrape_loop_done_complete (cfg : Config) (oracle : Oracle) :
    ∀ (fuel : Nat) (cid : Int) (c : Nat) (env : Env),
      (scrape_loop cfg oracle fuel cid c env).1 = .done →
      (scrape_loop cfg oracle fuel cid c env).2.db.metadata.scraping_complete = true := by
  intro fuel
  induction fuel with
  | zero =>
    intro cid c env h
    simp [scrape_loop] at h
  | succ f ih =>
    intro cid c env h
    by_cases hc : c < cfg.CONSECUTIVE_404_LIMIT
    · rcases scrape_iter_spec cfg oracle cid c env with
        ⟨env2, heq, _, _, _⟩ |
        ⟨c2, env2, heq, _, _, _, _⟩
      · have hred : scrape_loop cfg oracle (f + 1) cid c env = (.aborted, env2) := by
          simp [scrape_loop, hc, heq]
        rw [hred] at h
        simp at h
      · have hred : scrape_loop cfg oracle (f + 1) cid c env
            = scrape_loop cfg oracle f (cid + 1) c2 env2 := by
          simp [scrape_loop, hc, heq]
        rw [hred] at h ⊢
        exact ih (cid + 1) c2 env2 h
    · have hred : scrape_loop cfg oracle (f + 1) cid c env
          = (.done, { env with db := update_scrape_metadata { scraping_complete := some true } env.now env.db }) := by
        simp [scrape_loop, hc]
      rw [hred]
      rfl

theorem scrape_loop_first_fetch (cfg : Config) (oracle : Oracle) (fuel : Nat) (cid : Int)
    (c : Nat) (env : Env)
    (hnew : is_course_already_attempted cid env.db = false)
    (hc : c < cfg.CONSECUTIVE_404_LIMIT)
    (hr : 1 ≤ cfg.RETRY_MAX_ATTEMPTS) :
    ∃ tail, (scrape_loop cfg oracle (fuel + 1) cid c env).2.netLog
      = env.netLog ++ cid :: tail := by
  rcases scrape_iter_spec cfg oracle cid c env with
    ⟨env2, heq, _, _, ext, hext, _, _, hcons⟩ |
    ⟨c2, env2, heq, ⟨ext, hext, _, _, hcons⟩, _, _, _⟩
  · have hred : scrape_loop cfg oracle (fuel + 1) cid c env = (.aborted, env2) := by
      simp [scrape_loop, hc, heq]
    rw [hred]
    obtain ⟨tail, htail⟩ := hcons hnew hr
    rw [htail] at hext
    exact ⟨tail, hext⟩
  · have hred : scrape_loop cfg oracle (fuel + 1) cid c env
        = scrape_loop cfg oracle fuel (cid + 1) c2 env2 := by
      simp [scrape_loop, hc, heq]
    rw [hred]
    obtain ⟨tail, htail⟩ := hcons hnew hr
    obtain ⟨ext2, hext2, _⟩ := scrape_loop_netLog cfg oracle fuel (cid + 1) c2 env2
    refine ⟨tail ++ ext2, ?_⟩
    rw [hext2, hext, htail]
    simp

theorem scrape_complete_noop (cfg : Config) (oracle : Oracle) (fuel : Nat) (env : Env)
    (h : env.db.metadata.scraping_complete = true) :
    scrape cfg oracle fuel env = (.done, env) := by
  simp [scrape, h]

theorem scrape_not_complete (cfg : Config) (oracle : Oracle) (fuel : Nat) (env : Env)
    (h : env.db.metadata.scraping_complete = false) :
    scrape cfg oracle fuel env
      = scrape_loop cfg oracle fuel (env.db.metadata.last_scraped_id + 1)
          env.db.metadata.consecutive_404s env := by
  simp [scrape, h]

theorem count_after_record (cfg : Config) (t t2 : Int) (db : DB) :
    get_api_calls_in_window cfg t (record_api_call t2 db)
      ≤ get_api_calls_in_window cfg t db + 1 := by
  unfold get_api_calls_in_window record_api_call
  rw [List.filter_append, List.length_append]
  have hone : (List.filter (fun ts => decide (t - windowMs cfg < ts)) [t2]).length ≤ 1 := by
    simp only [List.filter]
    split <;> simp
  omega

theorem fetch_course_unauthorized (cfg : Config) (oracle : Oracle) (course_id : Int)
    (env : Env) (h : oracle course_id 1 = .unauthorized)
    (hr : 1 ≤ cfg.RETRY_MAX_ATTEMPTS) :
    fetch_course cfg oracle course_id env
      = (.authError, recordCall { env with netLog := env.netLog ++ [course_id] }) := by
  obtain ⟨r, hrr⟩ : ∃ r, cfg.RETRY_MAX_ATTEMPTS = r + 1 :=
    ⟨cfg.RETRY_MAX_ATTEMPTS - 1, by omega⟩
  unfold fetch_course
  rw [hrr]
  simp [fetch_course_from, httpGet, h]

theorem fetch_all_throttled (cfg : Config) (oracle : Oracle) (course_id : Int)
    (h : ∀ a, oracle course_id a = .throttled) :
    ∀ (rem attempt : Nat) (env : Env),
      (fetch_course_from cfg oracle course_id attempt rem env).1 = .absent
      ∧ (fetch_course_from cfg oracle course_id attempt rem env).2.netLog.length
          = env.netLog.length + rem := by
  intro rem
  induction rem with
  | zero =>
    intro attempt env
    exact ⟨rfl, by simp [fetch_course_from]⟩
  | succ r ih =>
    intro attempt env
    simp only [fetch_course_from, httpGet, h]
    obtain ⟨h1, h2⟩ := ih (attempt + 1)
      (sleepMs cfg.RATE_LIMIT_SLEEP_MS (recordCall { env with netLog := env.netLog ++ [course_id] }))
    refine ⟨h1, ?_⟩
    rw [h2]
    simp only [sleepMs_netLog, recordCall_netLog, List.length_append, List.length_cons,
      List.length_nil]
    omega

theorem insertHoles_isOk (t1 t2 : Nat) :
    ∀ (hs : List HoleData) (n : Nat),
      exceptIsOk (insertHoles t1 n hs) = exceptIsOk (insertHoles t2 n hs) := by
  intro hs
  induction hs with
  | nil => intro n; rfl
  | cons hd rest ih =>
    intro n
    simp only [insertHoles]
    split
    · cases h1 : insertHoles t1 (n + 1) rest <;> cases h2 : insertHoles t2 (n + 1) rest
      · rfl
      · have hih := ih (n + 1)
        rw [h1, h2] at hih
        simp [exceptIsOk] at hih
      · have hih := ih (n + 1)
        rw [h1, h2] at hih
        simp [exceptIsOk] at hih
      · rfl
    · rfl

theorem insertTees_isOk (cid1 cid2 : Int) (g1 g2 : Gender) :
    ∀ (ts : List TeeData) (db1 db2 : DB),
      exceptIsOk (insertTees cid1 g1 ts db1) = exceptIsOk (insertTees cid2 g2 ts db2) := by
  intro ts
  induction ts with
  | nil => intro db1 db2; rfl
  | cons t rest ih =>
    intro db1 db2
    cases ht : t.tee_name with
    | none => simp [insertTees, ht, exceptIsOk]
    | some nm =>
      simp only [insertTees, ht]
      cases h1 : insertHoles db1.next_tee_rowid 1 t.holes <;>
        cases h2 : insertHoles db2.next_tee_rowid 1 t.holes
      · rfl
      · have hik := insertHoles_isOk db1.next_tee_rowid db2.next_tee_rowid t.holes 1
        rw [h1, h2] at hik
        simp [exceptIsOk] at hik
      · have hik := insertHoles_isOk db1.next_tee_rowid db2.next_tee_rowid t.holes 1
        rw [h1, h2] at hik
        simp [exceptIsOk] at hik
      · exact ih _ _

theorem save_course_tees_isOk (cid1 cid2 : Int) (tsm tsf : List TeeData) (t1 t2 : Int)
    (dbA dbB : DB) :
    exceptIsOk (save_course_tees cid1 tsm tsf t1 dbA)
      = exceptIsOk (save_course_tees cid2 tsm tsf t2 dbB) := by
  unfold save_course_tees
  cases h1 : insertTees cid1 Gender.male tsm dbA <;>
    cases h2 : insertTees cid2 Gender.male tsm dbB
  · rfl
  · have hm := insertTees_isOk cid1 cid2 Gender.male Gender.male tsm dbA dbB
    rw [h1, h2] at hm
    simp [exceptIsOk] at hm
  · have hm := insertTees_isOk cid1 cid2 Gender.male Gender.male tsm dbA dbB
    rw [h1, h2] at hm
    simp [exceptIsOk] at hm
  · rename_i db3A db3B
    dsimp only
    cases hf1 : insertTees cid1 Gender.female tsf db3A <;>
      cases hf2 : insertTees cid2 Gender.female tsf db3B
    · rfl
    · have hf := insertTees_isOk cid1 cid2 Gender.female Gender.female tsf db3A db3B
      rw [hf1, hf2] at hf
      simp [exceptIsOk] at hf
    · have hf := insertTees_isOk cid1 cid2 Gender.female Gender.female tsf db3A db3B
      rw [hf1, hf2] at hf
      simp [exceptIsOk] at hf
    · rfl

theorem save_course_isOk (d : CourseData) (t1 t2 : Int) (dbA dbB : DB) :
    exceptIsOk (save_course d t1 dbA) = exceptIsOk (save_course d t2 dbB) := by
  unfold save_course
  dsimp only
  cases hid : (d.course.getD emptyCourseFields).id with
  | none => rfl
  | some cid =>
    dsimp only
    by_cases hz : cid = 0
    · rw [if_pos hz, if_pos hz]
    · rw [if_neg hz, if_neg hz]
      cases hloc : (d.course.getD emptyCourseFields).location with
      | none =>
        dsimp only
        exact save_course_tees_isOk cid cid _ _ t1 t2 _ _
      | some loc =>
        dsimp only
        exact save_course_tees_isOk cid cid _ _ t1 t2 _ _

theorem exceptIsOk_false {ε α : Type} {x : Except ε α} (h : exceptIsOk x = false) :
    ∃ e, x = .error e := by
  cases x with
  | ok a => simp [exceptIsOk] at h
  | error e => exact ⟨e, rfl⟩

theorem record_payload_outcome_error_eq (cid : Int) (d : CourseData) (env2 : Env)
    (e : SaveError) (h : save_course d env2.now env2.db = .error e) :
    record_payload_outcome cid d env2
      = { env2 with db := record_scrape_attempt cid 200 false env2.now env2.db } := by
  unfold record_payload_outcome
  rw [h]

theorem fetchCounts_correct (cfg : Config) (oracle : Oracle) (course_id : Int) :
    ∀ (rem attempt : Nat) (env : Env),
      (fetch_course_from cfg oracle course_id attempt rem env).2.netLog.length
        = env.netLog.length + (fetchCounts cfg oracle course_id attempt rem).1
      ∧ (fetch_course_from cfg oracle course_id attempt rem env).2.db.api_calls.length
        = env.db.api_calls.length + (fetchCounts cfg oracle course_id attempt rem).2 := by
  intro rem
  induction rem with
  | zero =>
    intro attempt env
    exact ⟨by simp [fetch_course_from, fetchCounts], by simp [fetch_course_from, fetchCounts]⟩
  | succ r ih =>
    intro attempt env
    simp only [fetch_course_from, fetchCounts, httpGet]
    cases h : oracle course_id attempt <;> simp only [h]
    case ok d =>
      constructor
      · simp [recordCall, record_api_call]
      · simp [recordCall, record_api_call]
    case notFound =>
      constructor
      · simp [recordCall, record_api_call]
      · simp [recordCall, record_api_call]
    case unauthorized =>
      constructor
      · simp [recordCall, record_api_call]
      · simp [recordCall, record_api_call]
    case throttled =>
      obtain ⟨ih1, ih2⟩ := ih (attempt + 1)
        (sleepMs cfg.RATE_LIMIT_SLEEP_MS (recordCall { env with netLog := env.netLog ++ [course_id] }))
      constructor
      · rw [ih1]
        simp only [sleepMs_netLog, recordCall_netLog, List.length_append, List.length_cons,
          List.length_nil]
        omega
      · rw [ih2]
        simp only [sleepMs_db, recordCall, record_api_call, List.length_append,
          List.length_cons, List.length_nil]
        omega
    case otherStatus code =>
      split
      · obtain ⟨ih1, ih2⟩ := ih (attempt + 1)
          (sleepMs (cfg.RETRY_DELAY_MS * attempt)
            (recordCall { env with netLog := env.netLog ++ [course_id] }))
        constructor
        · rw [ih1]
          simp only [sleepMs_netLog, recordCall_netLog, List.length_append, List.length_cons,
            List.length_nil]
          omega
        · rw [ih2]
          simp only [sleepMs_db, recordCall, record_api_call, List.length_append,
            List.length_cons, List.length_nil]
          omega
      · constructor
        · simp [recordCall, record_api_call]
        · simp [recordCall, record_api_call]
    case netError =>
      split
      · obtain ⟨ih1, ih2⟩ := ih (attempt + 1)
          (sleepMs (cfg.RETRY_DELAY_MS * attempt) { env with netLog := env.netLog ++ [course_id] })
        constructor
        · rw [ih1]
          simp only [sleepMs_netLog, List.length_append, List.length_cons, List.length_nil]
          omega
        · rw [ih2]
          simp only [sleepMs_db]
      · constructor
        · simp
        · simp

/-- C1: an id that already has an AttemptRecord is never fetched again —
the skip advances the cursor with the world untouched (no Fetcher, no
Rate Limiter interaction), any id attempted at the start of a run never
appears among the network calls that run issues, and on the restart world
with ledger 1..100 and last_id 100 every issued call is for an id of at
least 101, the first one being exactly 101. -/
theorem idempotent_resume :
    (∀ (cfg : Config) (oracle : Oracle) (fuel : Nat) (cid : Int) (c : Nat) (env : Env),
        c < cfg.CONSECUTIVE_404_LIMIT →
        is_course_already_attempted cid env.db = true →
        scrape_loop cfg oracle (fuel + 1) cid c env
          = scrape_loop cfg oracle fuel (cid + 1) c env)
    ∧ (∀ (cfg : Config) (oracle : Oracle) (fuel : Nat) (env : Env) (i : Int),
        is_course_already_attempted i env.db = true →
        i ∉ ((scrape cfg oracle fuel env).2.netLog.drop env.netLog.length))
    ∧ (∀ (oracle : Oracle) (fuel : Nat),
        (∀ x ∈ (scrape defaultConfig oracle fuel resumeEnv).2.netLog, 101 ≤ x)
        ∧ (1 ≤ fuel →
            (scrape defaultConfig oracle fuel resumeEnv).2.netLog.head? = some 101)) := by
  refine ⟨?_, ?_, ?_⟩
  · intro cfg oracle fuel cid c env hc hatt
    have hiter : scrape_iter cfg oracle cid c env = .next (cid + 1) c env := by
      simp [scrape_iter, hatt]
    simp [scrape_loop, hc, hiter]
  · intro cfg oracle fuel env i hi
    by_cases hcomp : env.db.metadata.scraping_complete = true
    · rw [scrape_complete_noop cfg oracle fuel env hcomp]
      simp [List.drop_length]
    · have hcompf : env.db.metadata.scraping_complete = false := by
        simpa using hcomp
      rw [scrape_not_complete cfg oracle fuel env hcompf]
      obtain ⟨ext, hext, hni⟩ := scrape_loop_no_refetch cfg oracle fuel
        (env.db.metadata.last_scraped_id + 1) env.db.metadata.consecutive_404s env i hi
      rw [hext, List.drop_left]
      exact hni
  · intro oracle fuel
    have hcompf : resumeEnv.db.metadata.scraping_complete = false := rfl
    have hnil : resumeEnv.netLog = [] := rfl
    have hlast : resumeEnv.db.metadata.last_scraped_id = 100 := rfl
    constructor
    · rw [scrape_not_complete defaultConfig oracle fuel resumeEnv hcompf]
      obtain ⟨ext, hext, hlb⟩ := scrape_loop_netLog defaultConfig oracle fuel
        (resumeEnv.db.metadata.last_scraped_id + 1) resumeEnv.db.metadata.consecutive_404s
        resumeEnv
      rw [hext, hnil]
      intro x hx
      have hx2 : x ∈ ext := by simpa using hx
      have hb := hlb x hx2
      rw [hlast] at hb
      omega
    · intro hfuel
      obtain ⟨f, rfl⟩ : ∃ f, fuel = f + 1 := ⟨fuel - 1, by omega⟩
      rw [scrape_not_complete defaultConfig oracle (f + 1) resumeEnv hcompf]
      obtain ⟨tail, htail⟩ := scrape_loop_first_fetch defaultConfig oracle f
        (resumeEnv.db.metadata.last_scraped_id + 1) resumeEnv.db.metadata.consecutive_404s
        resumeEnv (by decide) (by decide) (by decide)
      rw [htail, hnil, hlast]
      rfl

/-- C1 witness: the skip equation at an attempted id of the restart
world, and the first fetched id of the restart run being 101. -/
theorem idempotent_resume_witness :
    scrape_loop defaultConfig notFoundOracle 1 50 0 resumeEnv
      = scrape_loop defaultConfig notFoundOracle 0 51 0 resumeEnv
    ∧ (scrape defaultConfig notFoundOracle 1 resumeEnv).2.netLog.head? = some 101 :=
  ⟨idempotent_resume.1 defaultConfig notFoundOracle 0 50 0 resumeEnv (by decide) (by decide),
    (idempotent_resume.2.2 notFoundOracle 1).2 (by decide)⟩

/-- C5: whenever the loop finishes (the consecutive-miss counter having
reached the threshold), scraping_complete is true in the final state; a
loop entered at the threshold immediately sets complete and stops; and an
invocation that starts with complete true returns the world unchanged —
no fetch, no counter increment, no state change at all. -/
theorem termination_complete_noop (cfg : Config) (oracle : Oracle) (fuel : Nat) (env : Env) :
    (env.db.metadata.scraping_complete = true → scrape cfg oracle fuel env = (.done, env))
    ∧ ((scrape cfg oracle fuel env).1 = .done →
        (scrape cfg oracle fuel env).2.db.metadata.scraping_complete = true)
    ∧ (∀ (cid : Int) (c : Nat), ¬ c < cfg.CONSECUTIVE_404_LIMIT →
        scrape_loop cfg oracle (fuel + 1) cid c env
          = (.done, { env with db := update_scrape_metadata { scraping_complete := some true } env.now env.db })) := by
  refine ⟨fun h => scrape_complete_noop cfg oracle fuel env h, ?_, ?_⟩
  · intro hdone
    by_cases hcomp : env.db.metadata.scraping_complete = true
    · rw [scrape_complete_noop cfg oracle fuel env hcomp]
      exact hcomp
    · have hcompf : env.db.metadata.scraping_complete = false := by
        simpa using hcomp
      rw [scrape_not_complete cfg oracle fuel env hcompf] at hdone ⊢
      exact scrape_loop_done_complete cfg oracle fuel _ _ env hdone
  · intro cid c hc
    simp [scrape_loop, hc]

/-- C5 witness: a run started on an already complete world is an exact
no-op. -/
theorem termination_complete_noop_witness :
    scrape defaultConfig notFoundOracle 1 completeEnv = (.done, completeEnv) :=
  (termination_complete_noop defaultConfig notFoundOracle 1 completeEnv).1 rfl

/-- C9: last_scraped_id never decreases across a run; an engine started
with complete true does not run (the world is returned unchanged);
scraping_complete is monotone across the loop (once true it stays true);
and from any cursor strictly above last_scraped_id the loop only moves
last_scraped_id upward (each update writes the cursor value, strictly
greater than the previous last_id). -/
theorem position_monotonicity (cfg : Config) (oracle : Oracle) (fuel : Nat) (env : Env) :
    env.db.metadata.last_scraped_id
      ≤ (scrape cfg oracle fuel env).2.db.metadata.last_scraped_id
    ∧ (env.db.metadata.scraping_complete = true → scrape cfg oracle fuel env = (.done, env))
    ∧ (∀ (cid : Int) (c : Nat), env.db.metadata.scraping_complete = true →
        (scrape_loop cfg oracle fuel cid c env).2.db.metadata.scraping_complete = true)
    ∧ (∀ (cid : Int) (c : Nat), env.db.metadata.last_scraped_id < cid →
        env.db.metadata.last_scraped_id
          ≤ (scrape_loop cfg oracle fuel cid c env).2.db.metadata.last_scraped_id) := by
  refine ⟨?_, fun h => scrape_complete_noop cfg oracle fuel env h,
    fun cid c h => scrape_loop_complete_mono cfg oracle fuel cid c env h,
    fun cid c h => scrape_loop_last_mono cfg oracle fuel cid c env h⟩
  by_cases hcomp : env.db.metadata.scraping_complete = true
  · rw [scrape_complete_noop cfg oracle fuel env hcomp]
  · have hcompf : env.db.metadata.scraping_complete = false := by
      simpa using hcomp
    rw [scrape_not_complete cfg oracle fuel env hcompf]
    exact scrape_loop_last_mono cfg oracle fuel _ _ env (by omega)

/-- C9 witness: the loop-level monotonicity at a concrete cursor above
the stored position. -/
theorem position_monotonicity_witness :
    initEnv.db.metadata.last_scraped_id
      ≤ (scrape_loop defaultConfig notFoundOracle 1 5 0 initEnv).2.db.metadata.last_scraped_id :=
  (position_monotonicity defaultConfig notFoundOracle 1 initEnv).2.2.2 5 0 (by decide)

/-- C4 (amended): a 401 on the in-flight id makes the fetcher raise at
once with no further network call; the engine aborts the run, writes no
AttemptRecord for the id, leaves CrawlPosition (the whole metadata row)
untouched, and the process exits with code 1.  (A 403, by contrast, takes
the unexpected-status retry path — see the counterexample.) -/
theorem auth_failure_aborts (cfg : Config) (oracle : Oracle) (fuel : Nat) (env : Env)
    (hcomp : env.db.metadata.scraping_complete = false)
    (hcount : env.db.metadata.consecutive_404s < cfg.CONSECUTIVE_404_LIMIT)
    (hnew : is_course_already_attempted (env.db.metadata.last_scraped_id + 1) env.db = false)
    (hauth : oracle (env.db.metadata.last_scraped_id + 1) 1 = .unauthorized)
    (hretry : 1 ≤ cfg.RETRY_MAX_ATTEMPTS) :
    (scrape cfg oracle (fuel + 1) env).1 = .aborted
    ∧ (scrape cfg oracle (fuel + 1) env).2.db.scrape_attempts = env.db.scrape_attempts
    ∧ (scrape cfg oracle (fuel + 1) env).2.db.metadata = env.db.metadata
    ∧ (scrape cfg oracle (fuel + 1) env).2.netLog
        = env.netLog ++ [env.db.metadata.last_scraped_id + 1]
    ∧ (main cfg oracle (fuel + 1) env).1 = 1 := by
  have henv1 : ∃ env1 : Env, env1.netLog = env.netLog ∧ SameExceptCalls env.db env1.db
      ∧ scrape_iter cfg oracle (env.db.metadata.last_scraped_id + 1)
          env.db.metadata.consecutive_404s env
        = handle_fetch cfg oracle (env.db.metadata.last_scraped_id + 1)
            env.db.metadata.consecutive_404s env1 := by
    by_cases hrl : check_rate_limit cfg env = true
    · exact ⟨env, rfl, sameExceptCalls_refl _, by simp [scrape_iter, hnew, hrl]⟩
    · have hrlf : check_rate_limit cfg env = false := by simpa using hrl
      refine ⟨{ wait_for_rate_limit_window cfg env with db := cleanup_old_api_calls cfg (wait_for_rate_limit_window cfg env).now (wait_for_rate_limit_window cfg env).db }, wait_netLog cfg env, ?_, ?_⟩
      · exact sameExceptCalls_trans (wait_frame cfg env)
          (cleanup_frame cfg (wait_for_rate_limit_window cfg env).now (wait_for_rate_limit_window cfg env).db)
      · simp [scrape_iter, hnew, hrlf]
  obtain ⟨env1, hnl, hdb, hif⟩ := henv1
  have hfetch := fetch_course_unauthorized cfg oracle
    (env.db.metadata.last_scraped_id + 1) env1 hauth hretry
  have hhandle : handle_fetch cfg oracle (env.db.metadata.last_scraped_id + 1)
      env.db.metadata.consecutive_404s env1
      = .abort (recordCall { env1 with netLog := env1.netLog ++ [env.db.metadata.last_scraped_id + 1] }) := by
    unfold handle_fetch
    rw [hfetch]
  have hfull : scrape cfg oracle (fuel + 1) env
      = (.aborted, recordCall { env1 with netLog := env1.netLog ++ [env.db.metadata.last_scraped_id + 1] }) := by
    rw [scrape_not_complete cfg oracle (fuel + 1) env hcomp]
    simp [scrape_loop, hcount, hif, hhandle]
  refine ⟨by rw [hfull], ?_, ?_, ?_, ?_⟩
  · rw [hfull]
    exact hdb.2.1
  · rw [hfull]
    exact hdb.1
  · rw [hfull]
    show env1.netLog ++ [env.db.metadata.last_scraped_id + 1]
      = env.netLog ++ [env.db.metadata.last_scraped_id + 1]
    rw [hnl]
  · simp [main, hcomp, hfull]

/-- C4 witness: an all-401 remote aborts a fresh run and the process
exits 1. -/
theorem auth_failure_aborts_witness :
    (scrape defaultConfig unauthorizedOracle 1 initEnv).1 = ScrapeOutcome.aborted
    ∧ (main defaultConfig unauthorizedOracle 1 initEnv).1 = 1 := by
  have h := auth_failure_aborts defaultConfig unauthorizedOracle 0 initEnv rfl
    (by decide) (by decide) rfl (by decide)
  exact ⟨h.1, h.2.2.2.2⟩

/-- C2 (amended): the engine consults allowed() once before each per-id
fetch invocation; for a gated fetch whose first network call settles the
id (200, 404 or 401 — so no ungated retry happens), the call count in the
window immediately after the fetch is at most max_calls_per_window.
Throttled or transient retries inside one invocation are not gated and
can exceed the quota, and after a rate-limit wait the engine purges and
fetches without re-checking — see the counterexample. -/
theorem rate_limit_gated_single_call (cfg : Config) (oracle : Oracle) (course_id : Int)
    (env : Env)
    (hallow : check_rate_limit cfg env = true)
    (hsingle : oracle course_id 1 = .notFound ∨ oracle course_id 1 = .unauthorized
      ∨ ∃ d, oracle course_id 1 = .ok d) :
    get_api_calls_in_window cfg (fetch_course cfg oracle course_id env).2.now
      (fetch_course cfg oracle course_id env).2.db ≤ cfg.MAX_CALLS_PER_DAY := by
  have hlt : get_api_calls_in_window cfg env.now env.db < cfg.MAX_CALLS_PER_DAY := by
    simpa [check_rate_limit] using hallow
  cases hrm : cfg.RETRY_MAX_ATTEMPTS with
  | zero =>
    have hdone : fetch_course cfg oracle course_id env = (.absent, env) := by
      unfold fetch_course
      rw [hrm]
      rfl
    rw [hdone]
    exact le_of_lt hlt
  | succ r =>
    have hsnd : (fetch_course cfg oracle course_id env).2
        = recordCall { env with netLog := env.netLog ++ [course_id] } := by
      unfold fetch_course
      rw [hrm]
      rcases hsingle with h | h | ⟨d, h⟩ <;> simp [fetch_course_from, httpGet, h]
    rw [hsnd]
    show get_api_calls_in_window cfg env.now (record_api_call env.now env.db)
      ≤ cfg.MAX_CALLS_PER_DAY
    have hcr := count_after_record cfg env.now env.now env.db
    omega

/-- C2 witness: a 404-answering remote under the default quota. -/
theorem rate_limit_gated_single_call_witness :
    get_api_calls_in_window defaultConfig
      (fetch_course defaultConfig notFoundOracle 1 initEnv).2.now
      (fetch_course defaultConfig notFoundOracle 1 initEnv).2.db
      ≤ defaultConfig.MAX_CALLS_PER_DAY :=
  rate_limit_gated_single_call defaultConfig notFoundOracle 1 initEnv (by decide) (Or.inl rfl)

/-- C3 (amended): a 429 makes the fetcher sleep the fixed cooldown and
retry the same id, but the retry consumes a slot of the shared bounded
attempt budget — the loop counter advances and one fewer iteration
remains; consequently RETRY_MAX_ATTEMPTS consecutive 429s exhaust the
budget and the id is treated as absent. -/
theorem throttle_cooldown_same_id_shared_budget (cfg : Config) (oracle : Oracle)
    (course_id : Int) :
    (∀ (attempt rem : Nat) (env : Env), oracle course_id attempt = .throttled →
        fetch_course_from cfg oracle course_id attempt (rem + 1) env
          = fetch_course_from cfg oracle course_id (attempt + 1) rem
              (sleepMs cfg.RATE_LIMIT_SLEEP_MS
                (recordCall { env with netLog := env.netLog ++ [course_id] })))
    ∧ ((∀ a, oracle course_id a = .throttled) → ∀ env : Env,
        (fetch_course cfg oracle course_id env).1 = .absent
        ∧ (fetch_course cfg oracle course_id env).2.netLog.length
            = env.netLog.length + cfg.RETRY_MAX_ATTEMPTS) := by
  constructor
  · intro attempt rem env h
    simp [fetch_course_from, httpGet, h]
  · intro h env
    exact fetch_all_throttled cfg oracle course_id h cfg.RETRY_MAX_ATTEMPTS 1 env

/-- C3 witness: under an always-throttling remote the default budget of 3
is exhausted by 429s alone and the fetch returns absent after exactly 3
network calls. -/
theorem throttle_cooldown_same_id_shared_budget_witness :
    (fetch_course defaultConfig allThrottledOracle 1 initEnv).1 = FetchResult.absent
    ∧ (fetch_course defaultConfig allThrottledOracle 1 initEnv).2.netLog.length
        = initEnv.netLog.length + defaultConfig.RETRY_MAX_ATTEMPTS :=
  (throttle_cooldown_same_id_shared_budget defaultConfig allThrottledOracle 1).2
    (fun _ => rfl) initEnv

/-- C8 (amended): over one fetch_course invocation, the Call Ledger grows
by exactly the number of attempts that received an HTTP response (one
record per responded network call — throttled and unexpected-status
retries included), while the network log grows by the number of issued
calls; attempts that end in a network exception issue a call but record
nothing, as fetchCounts makes explicit. -/
theorem call_ledger_counts (cfg : Config) (oracle : Oracle) (course_id : Int) (env : Env) :
    (fetch_course cfg oracle course_id env).2.netLog.length
      = env.netLog.length + (fetchCounts cfg oracle course_id 1 cfg.RETRY_MAX_ATTEMPTS).1
    ∧ (fetch_course cfg oracle course_id env).2.db.api_calls.length
      = env.db.api_calls.length
        + (fetchCounts cfg oracle course_id 1 cfg.RETRY_MAX_ATTEMPTS).2 :=
  fetchCounts_correct cfg oracle course_id cfg.RETRY_MAX_ATTEMPTS 1 env

/-- C6: when the transactional save of a fetched payload fails partway
through (its failure is a property of the payload alone, checked here on
a reference store), the rollback leaves the parent table and every
sub-table without any row for the id and total_saved unchanged; the
engine records AttemptRecord (id, 200, success false), still advances
CrawlPosition to the id with the miss counter reset, does not mark the
crawl complete, and the loop goes on to the next id instead of
aborting. -/
theorem atomic_save_failure (cfg : Config) (oracle : Oracle) (cid : Int) (c : Nat)
    (env : Env) (d : CourseData)
    (hlimit : c < cfg.CONSECUTIVE_404_LIMIT)
    (hnew : is_course_already_attempted cid env.db = false)
    (hrl : check_rate_limit cfg env = true)
    (hok : oracle cid 1 = .ok d)
    (hretry : 1 ≤ cfg.RETRY_MAX_ATTEMPTS)
    (hfail : exceptIsOk (save_course d 0 initDB) = false)
    (hcour : env.db.courses.all (fun r => r.id != cid) = true)
    (hloca : env.db.locations.all (fun r => r.course_id != cid) = true)
    (htee : env.db.tees.all (fun r => r.course_id != cid) = true) :
    (scrape_loop cfg oracle 1 cid c env).1 = .outOfFuel
    ∧ (scrape_loop cfg oracle 1 cid c env).2.db.courses.all (fun r => r.id != cid) = true
    ∧ (scrape_loop cfg oracle 1 cid c env).2.db.locations.all (fun r => r.course_id != cid) = true
    ∧ (scrape_loop cfg oracle 1 cid c env).2.db.tees.all (fun r => r.course_id != cid) = true
    ∧ (scrape_loop cfg oracle 1 cid c env).2.db.holes = env.db.holes
    ∧ (scrape_loop cfg oracle 1 cid c env).2.db.metadata.total_courses_scraped
        = env.db.metadata.total_courses_scraped
    ∧ (scrape_loop cfg oracle 1 cid c env).2.db.scrape_attempts.any
        (fun r => r.course_id == cid && r.status_code == 200 && r.success == false) = true
    ∧ (scrape_loop cfg oracle 1 cid c env).2.db.metadata.last_scraped_id = cid
    ∧ (scrape_loop cfg oracle 1 cid c env).2.db.metadata.consecutive_404s = 0
    ∧ (scrape_loop cfg oracle 1 cid c env).2.db.metadata.scraping_complete
        = env.db.metadata.scraping_complete := by
  have hfetch : fetch_course cfg oracle cid env
      = (.payload d, recordCall { env with netLog := env.netLog ++ [cid] }) := by
    obtain ⟨r, hrr⟩ : ∃ r, cfg.RETRY_MAX_ATTEMPTS = r + 1 :=
      ⟨cfg.RETRY_MAX_ATTEMPTS - 1, by omega⟩
    unfold fetch_course
    rw [hrr]
    simp [fetch_course_from, httpGet, hok]
  have hsf : exceptIsOk (save_course d (recordCall { env with netLog := env.netLog ++ [cid] }).now (recordCall { env with netLog := env.netLog ++ [cid] }).db) = false := by
    rw [save_course_isOk d (recordCall { env with netLog := env.netLog ++ [cid] }).now 0 (recordCall { env with netLog := env.netLog ++ [cid] }).db initDB]
    exact hfail
  obtain ⟨e, hserr⟩ := exceptIsOk_false hsf
  have hrpo := record_payload_outcome_error_eq cid d
    (recordCall { env with netLog := env.netLog ++ [cid] }) e hserr
  have hhandle : handle_fetch cfg oracle cid c env
      = advance_cursor cfg cid 0
          (apply_position_update cid 0
            (record_payload_outcome cid d (recordCall { env with netLog := env.netLog ++ [cid] }))) := by
    unfold handle_fetch
    rw [hfetch]
  rw [hrpo] at hhandle
  obtain ⟨env5, hadv, hadvLog, hadvDB⟩ := advance_cursor_eq cfg cid 0
    (apply_position_update cid 0 { recordCall { env with netLog := env.netLog ++ [cid] } with db := record_scrape_attempt cid 200 false (recordCall { env with netLog := env.netLog ++ [cid] }).now (recordCall { env with netLog := env.netLog ++ [cid] }).db })
  have hiter : scrape_iter cfg oracle cid c env = handle_fetch cfg oracle cid c env := by
    simp [scrape_iter, hnew, hrl]
  have hloop : scrape_loop cfg oracle 1 cid c env = (.outOfFuel, env5) := by
    have h1 : scrape_loop cfg oracle 1 cid c env = scrape_loop cfg oracle 0 (cid + 1) 0 env5 := by
      simp [scrape_loop, hlimit, hiter, hhandle, hadv]
    rw [h1]
    rfl
  have hcrs : env5.db.courses = env.db.courses := hadvDB.2.2.1
  have hlcs : env5.db.locations = env.db.locations := hadvDB.2.2.2.1
  have htes : env5.db.tees = env.db.tees := hadvDB.2.2.2.2.1
  have hhls : env5.db.holes = env.db.holes := hadvDB.2.2.2.2.2.1
  refine ⟨by rw [hloop], ?_, ?_, ?_, ?_, ?_, ?_, ?_, ?_, ?_⟩
  · rw [hloop]
    show env5.db.courses.all (fun r => r.id != cid) = true
    rw [hcrs]
    exact hcour
  · rw [hloop]
    show env5.db.locations.all (fun r => r.course_id != cid) = true
    rw [hlcs]
    exact hloca
  · rw [hloop]
    show env5.db.tees.all (fun r => r.course_id != cid) = true
    rw [htes]
    exact htee
  · rw [hloop]
    exact hhls
  · rw [hloop]
    rw [hadvDB.1]
    rfl
  · rw [hloop]
    show env5.db.scrape_attempts.any
      (fun r => r.course_id == cid && r.status_code == 200 && r.success == false) = true
    rw [hadvDB.2.1]
    show ((record_scrape_attempt cid 200 false (recordCall { env with netLog := env.netLog ++ [cid] }).now (recordCall { env with netLog := env.netLog ++ [cid] }).db).scrape_attempts).any (fun r => r.course_id == cid && r.status_code == 200 && r.success == false) = true
    simp [record_scrape_attempt, List.any_append]
  · rw [hloop]
    rw [hadvDB.1]
    rfl
  · rw [hloop]
    rw [hadvDB.1]
    rfl
  · rw [hloop]
    rw [hadvDB.1]
    rfl

/-- C6 witness: a payload whose first tee has no tee_name makes the save
raise mid-transaction; on a fresh store the run records the failed
attempt and keeps looping. -/
theorem atomic_save_failure_witness :
    (scrape_loop defaultConfig failingCourseOracle 1 1 0 initEnv).1 = ScrapeOutcome.outOfFuel
    ∧ (scrape_loop defaultConfig failingCourseOracle 1 1 0 initEnv).2.db.scrape_attempts.any
        (fun r => r.course_id == 1 && r.status_code == 200 && r.success == false) = true := by
  have h := atomic_save_failure defaultConfig failingCourseOracle 1 0 initEnv failingCourse
    (by decide) (by decide) (by decide) rfl (by decide) (by decide) (by decide) (by decide)
    (by decide)
  exact ⟨h.1, h.2.2.2.2.2.2.1⟩

end GolfScraper
